import Mathlib

/-!
Shallow embedding of `pyomo/common/multithread.py`.

The source defines two proxy classes:

* `MultiThreadWrapper(base)`: holds `self.__mtdict = defaultdict(base)`
  (name-mangled to `_MultiThreadWrapper__mtdict`).  `__getattr__`,
  `__setattr__`, `__enter__` and `__exit__` resolve the calling thread's
  private instance via `self.__mtdict[get_ident()]` (the `defaultdict`
  calls `base()` on a missing key) and forward the operation to it.
  `__setattr__` intercepts the single reserved name
  `'_MultiThreadWrapper__mtdict'` and stores it directly on the proxy.

* `MultiThreadWrapperWithMain(base)`: additionally stores
  `self.main_thread = base()` at construction and routes every operation
  performed on the main thread to that single instance; `__setattr__`
  additionally intercepts the name `'main_thread'`.

The embedding models Python objects explicitly: a proxy carries its own
`__dict__` (an association list from attribute names to values), wrapped
context instances live in a heap indexed by object ids, and the wrapped
context type is an arbitrary `CtxClass` record supplying the factory and
the instance-level attribute/scope operations.  Stateful operations
return the final state together with an `Except` result, so state
mutations that happen before an exception is raised are retained, as in
Python.  Thread identity (`get_ident()`) is a natural number; the check
`current_thread() is main_thread()` is modelled by comparison with a
designated main-thread identity.
-/

abbrev ThreadId := Nat
abbrev ObjId := Nat

/-- Python values as far as this component observes them: numbers, strings,
references to heap objects, the internal thread-id-to-instance dictionary,
and `None`. -/
inductive PyVal where
  | vnat : Nat → PyVal
  | vstr : String → PyVal
  | vobj : ObjId → PyVal
  | vdict : List (ThreadId × ObjId) → PyVal
  | vnone : PyVal
deriving DecidableEq, Repr

/-- Exceptions that can flow through the proxy. `userError` stands for an
arbitrary exception raised by wrapped code or by the base factory. -/
inductive Exc where
  | attributeError : String → Exc
  | typeError : Exc
  | recursionError : Exc
  | userError : Nat → Exc
deriving DecidableEq, Repr

/-- First-match lookup in an association list (Python `dict` access). -/
def alookup {κ α : Type} [DecidableEq κ] : List (κ × α) → κ → Option α
  | [], _ => none
  | e :: rest, k => if e.1 = k then some e.2 else alookup rest k

/-- Update-or-append in an association list (Python `dict` store: an existing
key keeps its position, a new key is appended). -/
def aset {κ α : Type} [DecidableEq κ] : List (κ × α) → κ → α → List (κ × α)
  | [], k, v => [(k, v)]
  | e :: rest, k, v => if e.1 = k then (k, v) :: rest else e :: aset rest k v

/-- The heap of wrapped context instances: object ids mapped to instance
states, plus the next fresh id.  Each `base()` call allocates a fresh id, so
"the factory returns a fresh object on each call" is structural here. -/
structure Heap (σ : Type) where
  objs : List (ObjId × σ)
  next : ObjId
deriving DecidableEq, Repr

/-- The behaviour of the wrapped context type: the factory (`base()`), which
may raise, and the instance-level attribute read/write and scoped-resource
operations, each of which may raise.  The embedding is parametric in this
record, so theorems proved for every `CtxClass` hold for every wrapped
context type. -/
structure CtxClass (σ : Type) where
  mkFresh : Except Exc σ
  getattr : σ → String → Except Exc PyVal
  setattr : σ → String → PyVal → Except Exc σ
  enter : σ → Except Exc (PyVal × σ)
  exitm : σ → Option Exc → Except Exc (PyVal × σ)

/-- The proxy object's own `__dict__`. -/
abbrev PDict := List (String × PyVal)

/-- The name-mangled attribute under which the per-thread dictionary is
stored on the proxy. -/
def mtdictName : String := "_MultiThreadWrapper__mtdict"

/-- The attribute under which `MultiThreadWrapperWithMain` stores the
designated main-thread instance. -/
def mainName : String := "main_thread"

/-- `defaultdict.__getitem__`: return the entry for `tid`; on a missing key
call the factory, insert the fresh instance and return it.  If the factory
raises, nothing is inserted and the exception propagates. -/
def ddGetitem {σ : Type} (C : CtxClass σ) (m : List (ThreadId × ObjId))
    (h : Heap σ) (tid : ThreadId) :
    (List (ThreadId × ObjId) × Heap σ) × Except Exc ObjId :=
  match alookup m tid with
  | some o => ((m, h), Except.ok o)
  | none =>
    match C.mkFresh with
    | Except.error e => ((m, h), Except.error e)
    | Except.ok s =>
        ((m ++ [(tid, h.next)], ⟨h.objs ++ [(h.next, s)], h.next + 1⟩),
          Except.ok h.next)

/-- `MultiThreadWrapper.__init__`: `self.__mtdict = defaultdict(base)` goes
through `__setattr__`, hits the reserved-name branch, and stores the empty
dictionary directly in the proxy's `__dict__`.  The factory is not called. -/
def MultiThreadWrapper.mtwInit : PDict := [(mtdictName, PyVal.vdict [])]

/-- `MultiThreadWrapper.__getattr__`: read `self.__mtdict`, resolve the
calling thread's instance via the defaultdict (creating it on first touch),
and forward the attribute read to that instance. -/
def MultiThreadWrapper.getattr {σ : Type} (C : CtxClass σ) (tid : ThreadId)
    (p : PDict) (h : Heap σ) (attr : String) :
    (PDict × Heap σ) × Except Exc PyVal :=
  match alookup p mtdictName with
  | some (PyVal.vdict m) =>
    match ddGetitem C m h tid with
    | ((m2, h2), Except.ok o) =>
      match alookup h2.objs o with
      | some s => ((aset p mtdictName (PyVal.vdict m2), h2), C.getattr s attr)
      | none =>
          ((aset p mtdictName (PyVal.vdict m2), h2), Except.error Exc.typeError)
    | ((m2, h2), Except.error e) =>
        ((aset p mtdictName (PyVal.vdict m2), h2), Except.error e)
  | some _ => ((p, h), Except.error Exc.typeError)
  | none => ((p, h), Except.error Exc.recursionError)

/-- `MultiThreadWrapper.__setattr__`: the reserved name
`'_MultiThreadWrapper__mtdict'` is stored directly on the proxy; any other
name is forwarded as a write on the calling thread's instance. -/
def MultiThreadWrapper.setattr {σ : Type} (C : CtxClass σ) (tid : ThreadId)
    (p : PDict) (h : Heap σ) (attr : String) (v : PyVal) :
    (PDict × Heap σ) × Except Exc Unit :=
  if attr = mtdictName then
    ((aset p attr v, h), Except.ok ())
  else
    match alookup p mtdictName with
    | some (PyVal.vdict m) =>
      match ddGetitem C m h tid with
      | ((m2, h2), Except.ok o) =>
        match alookup h2.objs o with
        | some s =>
          match C.setattr s attr v with
          | Except.ok s2 =>
              ((aset p mtdictName (PyVal.vdict m2),
                ⟨aset h2.objs o s2, h2.next⟩), Except.ok ())
          | Except.error e =>
              ((aset p mtdictName (PyVal.vdict m2), h2), Except.error e)
        | none =>
            ((aset p mtdictName (PyVal.vdict m2), h2),
              Except.error Exc.typeError)
      | ((m2, h2), Except.error e) =>
          ((aset p mtdictName (PyVal.vdict m2), h2), Except.error e)
    | some _ => ((p, h), Except.error Exc.typeError)
    | none => ((p, h), Except.error Exc.recursionError)

/-- `MultiThreadWrapper.__enter__`: `self.__mtdict[get_ident()].__enter__()`. -/
def MultiThreadWrapper.enter {σ : Type} (C : CtxClass σ) (tid : ThreadId)
    (p : PDict) (h : Heap σ) : (PDict × Heap σ) × Except Exc PyVal :=
  match alookup p mtdictName with
  | some (PyVal.vdict m) =>
    match ddGetitem C m h tid with
    | ((m2, h2), Except.ok o) =>
      match alookup h2.objs o with
      | some s =>
        match C.enter s with
        | Except.ok (v, s2) =>
            ((aset p mtdictName (PyVal.vdict m2),
              ⟨aset h2.objs o s2, h2.next⟩), Except.ok v)
        | Except.error e =>
            ((aset p mtdictName (PyVal.vdict m2), h2), Except.error e)
      | none =>
          ((aset p mtdictName (PyVal.vdict m2), h2), Except.error Exc.typeError)
    | ((m2, h2), Except.error e) =>
        ((aset p mtdictName (PyVal.vdict m2), h2), Except.error e)
  | some _ => ((p, h), Except.error Exc.typeError)
  | none => ((p, h), Except.error Exc.recursionError)

/-- `MultiThreadWrapper.__exit__`: forwards the exception triple unchanged to
`self.__mtdict[get_ident()].__exit__(...)` and returns its result. -/
def MultiThreadWrapper.exitm {σ : Type} (C : CtxClass σ) (tid : ThreadId)
    (p : PDict) (h : Heap σ) (einfo : Option Exc) :
    (PDict × Heap σ) × Except Exc PyVal :=
  match alookup p mtdictName with
  | some (PyVal.vdict m) =>
    match ddGetitem C m h tid with
    | ((m2, h2), Except.ok o) =>
      match alookup h2.objs o with
      | some s =>
        match C.exitm s einfo with
        | Except.ok (v, s2) =>
            ((aset p mtdictName (PyVal.vdict m2),
              ⟨aset h2.objs o s2, h2.next⟩), Except.ok v)
        | Except.error e =>
            ((aset p mtdictName (PyVal.vdict m2), h2), Except.error e)
      | none =>
          ((aset p mtdictName (PyVal.vdict m2), h2), Except.error Exc.typeError)
    | ((m2, h2), Except.error e) =>
        ((aset p mtdictName (PyVal.vdict m2), h2), Except.error e)
  | some _ => ((p, h), Except.error Exc.typeError)
  | none => ((p, h), Except.error Exc.recursionError)

/-- A full Python attribute read on a `MultiThreadWrapper` instance: names
present in the proxy's own `__dict__` are returned directly (CPython only
calls `__getattr__` when normal lookup fails). -/
def pyReadMTW {σ : Type} (C : CtxClass σ) (tid : ThreadId) (p : PDict)
    (h : Heap σ) (attr : String) : (PDict × Heap σ) × Except Exc PyVal :=
  match alookup p attr with
  | some v => ((p, h), Except.ok v)
  | none => MultiThreadWrapper.getattr C tid p h attr

/-- `MultiThreadWrapperWithMain.__init__`: run the base constructor (which
stores an empty dictionary) and then `self.main_thread = base()`, which the
subclass `__setattr__` intercepts and stores directly on the proxy.  If the
factory raises, construction fails. -/
def MultiThreadWrapperWithMain.mtwmInit {σ : Type} (C : CtxClass σ)
    (h : Heap σ) : Except Exc (PDict × Heap σ) :=
  match C.mkFresh with
  | Except.error e => Except.error e
  | Except.ok s =>
      Except.ok (aset MultiThreadWrapper.mtwInit mainName (PyVal.vobj h.next),
        ⟨h.objs ++ [(h.next, s)], h.next + 1⟩)

/-- `MultiThreadWrapperWithMain.__getattr__`: on the main thread, forward the
read to `self.main_thread`; otherwise fall back to the base class.  Reading
`self.main_thread` is a normal attribute access on the proxy's `__dict__`
(infinite recursion, were it absent, shows up as `recursionError`). -/
def MultiThreadWrapperWithMain.getattr {σ : Type} (C : CtxClass σ)
    (mainTid tid : ThreadId) (p : PDict) (h : Heap σ) (attr : String) :
    (PDict × Heap σ) × Except Exc PyVal :=
  if tid = mainTid then
    match alookup p mainName with
    | some (PyVal.vobj o) =>
      match alookup h.objs o with
      | some s => ((p, h), C.getattr s attr)
      | none => ((p, h), Except.error Exc.typeError)
    | some _ => ((p, h), Except.error (Exc.attributeError attr))
    | none => ((p, h), Except.error Exc.recursionError)
  else MultiThreadWrapper.getattr C tid p h attr

/-- `MultiThreadWrapperWithMain.__setattr__`: the mangled dictionary name
delegates to the base class; the name `'main_thread'` is stored directly on
the proxy (this branch precedes the main-thread check, so it applies from
any thread); on the main thread every other write goes to the main
instance; otherwise to the base class. -/
def MultiThreadWrapperWithMain.setattr {σ : Type} (C : CtxClass σ)
    (mainTid tid : ThreadId) (p : PDict) (h : Heap σ) (attr : String)
    (v : PyVal) : (PDict × Heap σ) × Except Exc Unit :=
  if attr = mtdictName then
    MultiThreadWrapper.setattr C tid p h attr v
  else if attr = mainName then
    ((aset p attr v, h), Except.ok ())
  else if tid = mainTid then
    match alookup p mainName with
    | some (PyVal.vobj o) =>
      match alookup h.objs o with
      | some s =>
        match C.setattr s attr v with
        | Except.ok s2 => ((p, ⟨aset h.objs o s2, h.next⟩), Except.ok ())
        | Except.error e => ((p, h), Except.error e)
      | none => ((p, h), Except.error Exc.typeError)
    | some _ => ((p, h), Except.error (Exc.attributeError attr))
    | none => ((p, h), Except.error Exc.recursionError)
  else MultiThreadWrapper.setattr C tid p h attr v

/-- `MultiThreadWrapperWithMain.__enter__`: on the main thread delegate to
`self.main_thread.__enter__()`, otherwise to the base class. -/
def MultiThreadWrapperWithMain.enter {σ : Type} (C : CtxClass σ)
    (mainTid tid : ThreadId) (p : PDict) (h : Heap σ) :
    (PDict × Heap σ) × Except Exc PyVal :=
  if tid = mainTid then
    match alookup p mainName with
    | some (PyVal.vobj o) =>
      match alookup h.objs o with
      | some s =>
        match C.enter s with
        | Except.ok (v, s2) => ((p, ⟨aset h.objs o s2, h.next⟩), Except.ok v)
        | Except.error e => ((p, h), Except.error e)
      | none => ((p, h), Except.error Exc.typeError)
    | some _ => ((p, h), Except.error Exc.typeError)
    | none => ((p, h), Except.error Exc.recursionError)
  else MultiThreadWrapper.enter C tid p h

/-- `MultiThreadWrapperWithMain.__exit__`: on the main thread delegate to
`self.main_thread.__exit__(...)` with the triple unchanged, otherwise to the
base class. -/
def MultiThreadWrapperWithMain.exitm {σ : Type} (C : CtxClass σ)
    (mainTid tid : ThreadId) (p : PDict) (h : Heap σ) (einfo : Option Exc) :
    (PDict × Heap σ) × Except Exc PyVal :=
  if tid = mainTid then
    match alookup p mainName with
    | some (PyVal.vobj o) =>
      match alookup h.objs o with
      | some s =>
        match C.exitm s einfo with
        | Except.ok (v, s2) => ((p, ⟨aset h.objs o s2, h.next⟩), Except.ok v)
        | Except.error e => ((p, h), Except.error e)
      | none => ((p, h), Except.error Exc.typeError)
    | some _ => ((p, h), Except.error Exc.typeError)
    | none => ((p, h), Except.error Exc.recursionError)
  else MultiThreadWrapper.exitm C tid p h einfo

/-- A full Python attribute read on a `MultiThreadWrapperWithMain` instance:
names found in the proxy's own `__dict__` (in particular `'main_thread'` and
the mangled dictionary name) are returned directly; only unresolved names
reach `__getattr__`. -/
def pyReadMTWM {σ : Type} (C : CtxClass σ) (mainTid tid : ThreadId)
    (p : PDict) (h : Heap σ) (attr : String) :
    (PDict × Heap σ) × Except Exc PyVal :=
  match alookup p attr with
  | some v => ((p, h), Except.ok v)
  | none => MultiThreadWrapperWithMain.getattr C mainTid tid p h attr

/-- Instance states of the spec's example counter-context type: a plain
attribute dictionary.  Reads of absent attributes raise `AttributeError`,
writes always succeed, and the scope protocol is trivial. -/
abbrev Attrs := List (String × PyVal)

/-- The spec's simple counter-context type as a `CtxClass`. -/
def counterClass : CtxClass Attrs where
  mkFresh := Except.ok []
  getattr := fun s n =>
    match alookup s n with
    | some v => Except.ok v
    | none => Except.error (Exc.attributeError n)
  setattr := fun s n v => Except.ok (aset s n v)
  enter := fun s => Except.ok (PyVal.vnone, s)
  exitm := fun s _ => Except.ok (PyVal.vnone, s)

/-- Boolean membership in a list of naturals. -/
def memB : Nat → List Nat → Bool
  | _, [] => false
  | x, y :: ys => (x == y) || memB x ys

/-- Boolean "no duplicates" for a list of naturals. -/
def nodupB : List Nat → Bool
  | [] => true
  | x :: xs => (!memB x xs) && nodupB xs

/-- Well-formedness of a per-thread dictionary together with the instance
heap: thread ids and object ids in the dictionary are duplicate-free, every
object id in the dictionary is allocated (below `next` and present in the
heap), and the heap itself has duplicate-free ids all below `next`.  Every
state reachable from a freshly constructed proxy satisfies this. -/
def wfB {σ : Type} (m : List (ThreadId × ObjId)) (h : Heap σ) : Bool :=
  nodupB (m.map Prod.fst) && nodupB (m.map Prod.snd)
    && m.all (fun e => decide (e.2 < h.next) && (alookup h.objs e.2).isSome)
    && nodupB (h.objs.map Prod.fst)
    && h.objs.all (fun e => decide (e.1 < h.next))

/-- One observable operation on the proxy, tagged with nothing but its
arguments; the calling thread is supplied separately. -/
inductive Act where
  | read : String → Act
  | write : String → PyVal → Act
  | enter : Act
  | exitm : Option Exc → Act
deriving DecidableEq, Repr

/-- `true` unless the action writes the reserved mangled dictionary name
(which would replace the proxy's bookkeeping state wholesale). -/
def Act.noReservedWrite : Act → Bool
  | .write attr _ => !(decide (attr = mtdictName))
  | _ => true

/-- Run one action from thread `t` against a `MultiThreadWrapper`, keeping
only the resulting state. -/
def stepState {σ : Type} (C : CtxClass σ) (st : PDict × Heap σ)
    (t : ThreadId) (a : Act) : PDict × Heap σ :=
  match a with
  | .read attr => (MultiThreadWrapper.getattr C t st.1 st.2 attr).1
  | .write attr v => (MultiThreadWrapper.setattr C t st.1 st.2 attr v).1
  | .enter => (MultiThreadWrapper.enter C t st.1 st.2).1
  | .exitm einfo => (MultiThreadWrapper.exitm C t st.1 st.2 einfo).1

/-- Run a sequential trace of proxy operations starting from a freshly
constructed `MultiThreadWrapper` over an empty heap. -/
def runTrace {σ : Type} (C : CtxClass σ) (tr : List (ThreadId × Act)) :
    PDict × Heap σ :=
  tr.foldl (fun st ta => stepState C st ta.1 ta.2)
    (MultiThreadWrapper.mtwInit, ⟨[], 0⟩)

/-- The per-thread dictionary currently stored on a proxy state. -/
def mapOf {σ : Type} (st : PDict × Heap σ) : List (ThreadId × ObjId) :=
  match alookup st.1 mtdictName with
  | some (PyVal.vdict m) => m
  | _ => []

/-- Python truthiness of the values this embedding knows. -/
def truthy : PyVal → Bool
  | PyVal.vnat n => n != 0
  | PyVal.vstr s => s != ""
  | PyVal.vobj _ => true
  | PyVal.vdict m => !m.isEmpty
  | PyVal.vnone => false

/-- The outcome of a `with` block whose body raised `e`, given what
`__exit__` returned: a truthy return suppresses the exception, a falsy
return re-raises it, and an exception from `__exit__` itself replaces it. -/
def withOutcome (exitRes : Except Exc PyVal) (e : Exc) : Except Exc Unit :=
  match exitRes with
  | Except.ok v => if truthy v then Except.ok () else Except.error e
  | Except.error e2 => Except.error e2

theorem alookup_aset_self {κ α : Type} [DecidableEq κ] (d : List (κ × α))
    (k : κ) (v : α) : alookup (aset d k v) k = some v := by
  induction d with
  | nil => simp [aset, alookup]
  | cons e rest ih =>
    by_cases hek : e.1 = k
    · simp [aset, hek, alookup]
    · simp [aset, hek, alookup, ih]

theorem alookup_aset_ne {κ α : Type} [DecidableEq κ] (d : List (κ × α))
    (k k2 : κ) (v : α) (hk : k ≠ k2) :
    alookup (aset d k v) k2 = alookup d k2 := by
  induction d with
  | nil => simp [aset, alookup, hk]
  | cons e rest ih =>
    by_cases hek : e.1 = k
    · simp [aset, hek, alookup, hk]
    · simp [aset, hek, alookup, ih]

theorem aset_eq_of_alookup {κ α : Type} [DecidableEq κ] (d : List (κ × α))
    (k : κ) (v : α) (hd : alookup d k = some v) : aset d k v = d := by
  induction d with
  | nil => simp [alookup] at hd
  | cons e rest ih =>
    obtain ⟨k2, v2⟩ := e
    by_cases hek : k2 = k
    · simp [alookup, hek] at hd
      simp [aset, hek, hd]
    · simp [alookup, hek] at hd
      simp [aset, hek, ih hd]

theorem alookup_mem {κ α : Type} [DecidableEq κ] (d : List (κ × α)) (k : κ)
    (v : α) (hd : alookup d k = some v) : (k, v) ∈ d := by
  induction d with
  | nil => simp [alookup] at hd
  | cons e rest ih =>
    obtain ⟨k2, v2⟩ := e
    by_cases hek : k2 = k
    · simp [alookup, hek] at hd
      simp [hek, hd]
    · simp [alookup, hek] at hd
      exact List.mem_cons_of_mem _ (ih hd)

theorem alookup_append_some {κ α : Type} [DecidableEq κ]
    (d d2 : List (κ × α)) (k : κ) (v : α) (hd : alookup d k = some v) :
    alookup (d ++ d2) k = some v := by
  induction d with
  | nil => simp [alookup] at hd
  | cons e rest ih =>
    by_cases hek : e.1 = k
    · simp [alookup, hek] at hd ⊢
      exact hd
    · simp [alookup, hek] at hd ⊢
      exact ih hd

theorem alookup_append_none {κ α : Type} [DecidableEq κ]
    (d d2 : List (κ × α)) (k : κ) (hd : alookup d k = none) :
    alookup (d ++ d2) k = alookup d2 k := by
  induction d with
  | nil => simp
  | cons e rest ih =>
    by_cases hek : e.1 = k
    · simp [alookup, hek] at hd
    · simp [alookup, hek] at hd ⊢
      exact ih hd

theorem memB_append (a : Nat) (l1 l2 : List Nat) :
    memB a (l1 ++ l2) = (memB a l1 || memB a l2) := by
  induction l1 with
  | nil => simp [memB]
  | cons x xs ih => simp [memB, ih, Bool.or_assoc]

theorem memB_snd_of_alookup (m : List (Nat × Nat)) (k x : Nat)
    (hd : alookup m k = some x) : memB x (m.map Prod.snd) = true := by
  induction m with
  | nil => simp [alookup] at hd
  | cons e rest ih =>
    by_cases hek : e.1 = k
    · simp [alookup, hek] at hd
      simp [memB, hd]
    · simp [alookup, hek] at hd
      simp [memB, ih hd]

theorem memB_fst_false_of_alookup_none (m : List (Nat × Nat)) (k : Nat)
    (hd : alookup m k = none) : memB k (m.map Prod.fst) = false := by
  induction m with
  | nil => simp [memB]
  | cons e rest ih =>
    by_cases hek : e.1 = k
    · simp [alookup, hek] at hd
    · simp [alookup, hek] at hd
      simp [memB, ih hd]
      omega

theorem memB_false_of_all_lt (l : List Nat) (n : Nat)
    (hl : l.all (fun x => decide (x < n)) = true) : memB n l = false := by
  induction l with
  | nil => simp [memB]
  | cons x xs ih =>
    simp only [List.all_cons, Bool.and_eq_true] at hl
    simp [memB, ih hl.2]
    have := of_decide_eq_true hl.1
    omega

theorem nodupB_append_singleton (l : List Nat) (x : Nat)
    (hl : nodupB l = true) (hx : memB x l = false) :
    nodupB (l ++ [x]) = true := by
  induction l with
  | nil => simp [nodupB, memB]
  | cons y ys ih =>
    simp only [nodupB, Bool.and_eq_true, Bool.not_eq_true'] at hl
    simp only [memB, Bool.or_eq_false_iff] at hx
    simp only [List.cons_append, nodupB, Bool.and_eq_true, Bool.not_eq_true']
    refine ⟨?_, ih hl.2 hx.2⟩
    rw [List.append_eq, memB_append, hl.1, Bool.false_or]
    simp [memB]
    intro hxy
    exact absurd hxy.symm (by simpa using hx.1)

theorem alookup_ne_of_nodup_snd (m : List (Nat × Nat)) (a b x y : Nat)
    (hnd : nodupB (m.map Prod.snd) = true) (hab : a ≠ b)
    (ha : alookup m a = some x) (hb : alookup m b = some y) : x ≠ y := by
  induction m with
  | nil => simp [alookup] at ha
  | cons e rest ih =>
    simp only [List.map_cons, nodupB, Bool.and_eq_true, Bool.not_eq_true']
      at hnd
    obtain ⟨hnd1, hnd2⟩ := hnd
    by_cases hea : e.1 = a
    · have heb : ¬ e.1 = b := fun hh => hab (hea ▸ hh)
      simp [alookup, hea] at ha
      simp [alookup, heb] at hb
      have hy := memB_snd_of_alookup rest b y hb
      intro hxy
      rw [ha, hxy] at hnd1
      rw [hnd1] at hy
      exact Bool.false_ne_true hy
    · simp [alookup, hea] at ha
      by_cases heb : e.1 = b
      · simp [alookup, heb] at hb
        have hx := memB_snd_of_alookup rest a x ha
        intro hxy
        rw [hb, ← hxy] at hnd1
        rw [hnd1] at hx
        exact Bool.false_ne_true hx
      · simp [alookup, heb] at hb
        exact ih hnd2 ha hb

theorem alookup_none_of_all_lt {α : Type} (l : List (Nat × α)) (n : Nat)
    (h : l.all (fun e => decide (e.1 < n)) = true) : alookup l n = none := by
  cases he : alookup l n with
  | none => rfl
  | some v =>
    have hmem := alookup_mem l n v he
    have := List.all_eq_true.mp h _ hmem
    simp at this

theorem map_fst_aset {κ α : Type} [DecidableEq κ] (l : List (κ × α)) (k : κ)
    (v : α) (hk : (alookup l k).isSome = true) :
    (aset l k v).map Prod.fst = l.map Prod.fst := by
  induction l with
  | nil => simp [alookup] at hk
  | cons e rest ih =>
    by_cases hek : e.1 = k
    · simp [aset, hek]
    · simp [alookup, hek] at hk
      simp [aset, hek, ih hk]

theorem alookup_aset_isSome {κ α : Type} [DecidableEq κ] (l : List (κ × α))
    (k j : κ) (v : α) (hj : (alookup l j).isSome = true) :
    (alookup (aset l k v) j).isSome = true := by
  by_cases hkj : k = j
  · rw [hkj, alookup_aset_self]
    rfl
  · rw [alookup_aset_ne l k j v hkj]
    exact hj

theorem wfB_aset_obj {σ : Type} (m : List (ThreadId × ObjId)) (h : Heap σ)
    (o : ObjId) (s2 : σ) (hwf : wfB m h = true)
    (ho : (alookup h.objs o).isSome = true) :
    wfB m ⟨aset h.objs o s2, h.next⟩ = true := by
  simp only [wfB, Bool.and_eq_true] at hwf ⊢
  obtain ⟨⟨⟨⟨h1, h2⟩, h3⟩, h4⟩, h5⟩ := hwf
  refine ⟨⟨⟨⟨h1, h2⟩, ?_⟩, ?_⟩, ?_⟩
  · rw [List.all_eq_true] at h3 ⊢
    intro e he
    have := h3 e he
    simp only [Bool.and_eq_true] at this ⊢
    exact ⟨this.1, alookup_aset_isSome h.objs o e.2 s2 this.2⟩
  · rw [map_fst_aset h.objs o s2 ho]
    exact h4
  · rw [List.all_eq_true] at h5 ⊢
    intro e he
    have hmem : e.1 ∈ (aset h.objs o s2).map Prod.fst :=
      List.mem_map_of_mem Prod.fst he
    rw [map_fst_aset h.objs o s2 ho] at hmem
    obtain ⟨e2, he2, he2eq⟩ := List.mem_map.mp hmem
    have := h5 e2 he2
    rw [he2eq] at this
    exact this

theorem wfB_extend {σ : Type} (m : List (ThreadId × ObjId)) (h : Heap σ)
    (t : ThreadId) (s0 : σ) (hwf : wfB m h = true)
    (ht : alookup m t = none) :
    wfB (m ++ [(t, h.next)]) ⟨h.objs ++ [(h.next, s0)], h.next + 1⟩ = true := by
  simp only [wfB, Bool.and_eq_true] at hwf ⊢
  obtain ⟨⟨⟨⟨h1, h2⟩, h3⟩, h4⟩, h5⟩ := hwf
  have hvals : (m.map Prod.snd).all (fun x => decide (x < h.next)) = true := by
    rw [List.all_eq_true]
    intro x hx
    obtain ⟨e, he, rfl⟩ := List.mem_map.mp hx
    have := List.all_eq_true.mp h3 e he
    simp only [Bool.and_eq_true] at this
    exact this.1
  have hkeys : (h.objs.map Prod.fst).all (fun x => decide (x < h.next))
      = true := by
    rw [List.all_eq_true]
    intro x hx
    obtain ⟨e, he, rfl⟩ := List.mem_map.mp hx
    exact List.all_eq_true.mp h5 e he
  refine ⟨⟨⟨⟨?_, ?_⟩, ?_⟩, ?_⟩, ?_⟩
  · rw [List.map_append]
    exact nodupB_append_singleton _ _ h1
      (memB_fst_false_of_alookup_none m t ht)
  · rw [List.map_append]
    exact nodupB_append_singleton _ _ h2 (memB_false_of_all_lt _ _ hvals)
  · rw [List.all_append, Bool.and_eq_true]
    constructor
    · rw [List.all_eq_true] at h3 ⊢
      intro e he
      have := h3 e he
      simp only [Bool.and_eq_true] at this ⊢
      obtain ⟨hlt, hsome⟩ := this
      obtain ⟨v, hv⟩ := Option.isSome_iff_exists.mp hsome
      have hlt2 := of_decide_eq_true hlt
      refine ⟨decide_eq_true (Nat.lt_succ_of_lt hlt2), ?_⟩
      rw [alookup_append_some h.objs [(h.next, s0)] e.2 v hv]
      rfl
    · simp only [List.all_cons, List.all_nil, Bool.and_true,
        Bool.and_eq_true]
      refine ⟨by simp, ?_⟩
      rw [alookup_append_none h.objs [(h.next, s0)] h.next
        (alookup_none_of_all_lt h.objs h.next h5)]
      simp [alookup]
  · rw [List.map_append]
    exact nodupB_append_singleton _ _ h4 (memB_false_of_all_lt _ _ hkeys)
  · rw [List.all_append, Bool.and_eq_true]
    constructor
    · rw [List.all_eq_true] at h5 ⊢
      intro e he
      have h6 := of_decide_eq_true (h5 e he)
      exact decide_eq_true (Nat.lt_succ_of_lt h6)
    · simp


theorem mtw_getattr_found {σ : Type} (C : CtxClass σ) (tid : ThreadId)
    (p : PDict) (h : Heap σ) (attr : String) (m : List (ThreadId × ObjId))
    (o : ObjId) (s : σ) (hm : alookup p mtdictName = some (PyVal.vdict m))
    (hla : alookup m tid = some o) (hho : alookup h.objs o = some s) :
    MultiThreadWrapper.getattr C tid p h attr = ((p, h), C.getattr s attr) := by
  simp only [MultiThreadWrapper.getattr, ddGetitem, hm, hla, hho,
    aset_eq_of_alookup p mtdictName (PyVal.vdict m) hm]

theorem mtw_getattr_new {σ : Type} (C : CtxClass σ) (tid : ThreadId)
    (p : PDict) (h : Heap σ) (attr : String) (m : List (ThreadId × ObjId))
    (s0 : σ) (hm : alookup p mtdictName = some (PyVal.vdict m))
    (hla : alookup m tid = none) (hfr : C.mkFresh = Except.ok s0)
    (hnone : alookup h.objs h.next = none) :
    MultiThreadWrapper.getattr C tid p h attr =
      ((aset p mtdictName (PyVal.vdict (m ++ [(tid, h.next)])),
        ⟨h.objs ++ [(h.next, s0)], h.next + 1⟩), C.getattr s0 attr) := by
  simp only [MultiThreadWrapper.getattr, ddGetitem, hm, hla, hfr,
    alookup_append_none h.objs [(h.next, s0)] h.next hnone]
  simp [alookup]

theorem mtw_getattr_factoryErr {σ : Type} (C : CtxClass σ) (tid : ThreadId)
    (p : PDict) (h : Heap σ) (attr : String) (m : List (ThreadId × ObjId))
    (e : Exc) (hm : alookup p mtdictName = some (PyVal.vdict m))
    (hla : alookup m tid = none) (hfr : C.mkFresh = Except.error e) :
    MultiThreadWrapper.getattr C tid p h attr = ((p, h), Except.error e) := by
  simp only [MultiThreadWrapper.getattr, ddGetitem, hm, hla, hfr,
    aset_eq_of_alookup p mtdictName (PyVal.vdict m) hm]

theorem mtw_setattr_reserved {σ : Type} (C : CtxClass σ) (tid : ThreadId)
    (p : PDict) (h : Heap σ) (v : PyVal) :
    MultiThreadWrapper.setattr C tid p h mtdictName v =
      ((aset p mtdictName v, h), Except.ok ()) := by
  simp [MultiThreadWrapper.setattr]

theorem mtw_setattr_found_ok {σ : Type} (C : CtxClass σ) (tid : ThreadId)
    (p : PDict) (h : Heap σ) (attr : String) (v : PyVal)
    (m : List (ThreadId × ObjId)) (o : ObjId) (s s2 : σ)
    (hattr : attr ≠ mtdictName)
    (hm : alookup p mtdictName = some (PyVal.vdict m))
    (hla : alookup m tid = some o) (hho : alookup h.objs o = some s)
    (hset : C.setattr s attr v = Except.ok s2) :
    MultiThreadWrapper.setattr C tid p h attr v =
      ((p, ⟨aset h.objs o s2, h.next⟩), Except.ok ()) := by
  simp only [MultiThreadWrapper.setattr, ddGetitem, hm, hla, hho, hset,
    aset_eq_of_alookup p mtdictName (PyVal.vdict m) hm]
  simp [hattr]

theorem mtw_setattr_found_err {σ : Type} (C : CtxClass σ) (tid : ThreadId)
    (p : PDict) (h : Heap σ) (attr : String) (v : PyVal)
    (m : List (ThreadId × ObjId)) (o : ObjId) (s : σ) (e : Exc)
    (hattr : attr ≠ mtdictName)
    (hm : alookup p mtdictName = some (PyVal.vdict m))
    (hla : alookup m tid = some o) (hho : alookup h.objs o = some s)
    (hset : C.setattr s attr v = Except.error e) :
    MultiThreadWrapper.setattr C tid p h attr v = ((p, h), Except.error e) := by
  simp only [MultiThreadWrapper.setattr, ddGetitem, hm, hla, hho, hset,
    aset_eq_of_alookup p mtdictName (PyVal.vdict m) hm]
  simp [hattr]

theorem mtw_setattr_new_ok {σ : Type} (C : CtxClass σ) (tid : ThreadId)
    (p : PDict) (h : Heap σ) (attr : String) (v : PyVal)
    (m : List (ThreadId × ObjId)) (s0 s2 : σ)
    (hattr : attr ≠ mtdictName)
    (hm : alookup p mtdictName = some (PyVal.vdict m))
    (hla : alookup m tid = none) (hfr : C.mkFresh = Except.ok s0)
    (hnone : alookup h.objs h.next = none)
    (hset : C.setattr s0 attr v = Except.ok s2) :
    MultiThreadWrapper.setattr C tid p h attr v =
      ((aset p mtdictName (PyVal.vdict (m ++ [(tid, h.next)])),
        ⟨aset (h.objs ++ [(h.next, s0)]) h.next s2, h.next + 1⟩),
        Except.ok ()) := by
  simp only [MultiThreadWrapper.setattr, ddGetitem, hm, hla, hfr,
    alookup_append_none h.objs [(h.next, s0)] h.next hnone]
  simp [alookup, hattr, hset]

theorem mtw_setattr_new_err {σ : Type} (C : CtxClass σ) (tid : ThreadId)
    (p : PDict) (h : Heap σ) (attr : String) (v : PyVal)
    (m : List (ThreadId × ObjId)) (s0 : σ) (e : Exc)
    (hattr : attr ≠ mtdictName)
    (hm : alookup p mtdictName = some (PyVal.vdict m))
    (hla : alookup m tid = none) (hfr : C.mkFresh = Except.ok s0)
    (hnone : alookup h.objs h.next = none)
    (hset : C.setattr s0 attr v = Except.error e) :
    MultiThreadWrapper.setattr C tid p h attr v =
      ((aset p mtdictName (PyVal.vdict (m ++ [(tid, h.next)])),
        ⟨h.objs ++ [(h.next, s0)], h.next + 1⟩), Except.error e) := by
  simp only [MultiThreadWrapper.setattr, ddGetitem, hm, hla, hfr,
    alookup_append_none h.objs [(h.next, s0)] h.next hnone]
  simp [alookup, hattr, hset]

theorem mtw_setattr_factoryErr {σ : Type} (C : CtxClass σ) (tid : ThreadId)
    (p : PDict) (h : Heap σ) (attr : String) (v : PyVal)
    (m : List (ThreadId × ObjId)) (e : Exc)
    (hattr : attr ≠ mtdictName)
    (hm : alookup p mtdictName = some (PyVal.vdict m))
    (hla : alookup m tid = none) (hfr : C.mkFresh = Except.error e) :
    MultiThreadWrapper.setattr C tid p h attr v = ((p, h), Except.error e) := by
  simp only [MultiThreadWrapper.setattr, ddGetitem, hm, hla, hfr,
    aset_eq_of_alookup p mtdictName (PyVal.vdict m) hm]
  simp [hattr]

theorem mtw_enter_found_ok {σ : Type} (C : CtxClass σ) (tid : ThreadId)
    (p : PDict) (h : Heap σ) (m : List (ThreadId × ObjId)) (o : ObjId)
    (s s2 : σ) (v : PyVal)
    (hm : alookup p mtdictName = some (PyVal.vdict m))
    (hla : alookup m tid = some o) (hho : alookup h.objs o = some s)
    (hent : C.enter s = Except.ok (v, s2)) :
    MultiThreadWrapper.enter C tid p h =
      ((p, ⟨aset h.objs o s2, h.next⟩), Except.ok v) := by
  simp only [MultiThreadWrapper.enter, ddGetitem, hm, hla, hho, hent,
    aset_eq_of_alookup p mtdictName (PyVal.vdict m) hm]

theorem mtw_enter_found_err {σ : Type} (C : CtxClass σ) (tid : ThreadId)
    (p : PDict) (h : Heap σ) (m : List (ThreadId × ObjId)) (o : ObjId)
    (s : σ) (e : Exc)
    (hm : alookup p mtdictName = some (PyVal.vdict m))
    (hla : alookup m tid = some o) (hho : alookup h.objs o = some s)
    (hent : C.enter s = Except.error e) :
    MultiThreadWrapper.enter C tid p h = ((p, h), Except.error e) := by
  simp only [MultiThreadWrapper.enter, ddGetitem, hm, hla, hho, hent,
    aset_eq_of_alookup p mtdictName (PyVal.vdict m) hm]

theorem mtw_enter_new_ok {σ : Type} (C : CtxClass σ) (tid : ThreadId)
    (p : PDict) (h : Heap σ) (m : List (ThreadId × ObjId)) (s0 s2 : σ)
    (v : PyVal) (hm : alookup p mtdictName = some (PyVal.vdict m))
    (hla : alookup m tid = none) (hfr : C.mkFresh = Except.ok s0)
    (hnone : alookup h.objs h.next = none)
    (hent : C.enter s0 = Except.ok (v, s2)) :
    MultiThreadWrapper.enter C tid p h =
      ((aset p mtdictName (PyVal.vdict (m ++ [(tid, h.next)])),
        ⟨aset (h.objs ++ [(h.next, s0)]) h.next s2, h.next + 1⟩),
        Except.ok v) := by
  simp only [MultiThreadWrapper.enter, ddGetitem, hm, hla, hfr,
    alookup_append_none h.objs [(h.next, s0)] h.next hnone]
  simp [alookup, hent]

theorem mtw_enter_new_err {σ : Type} (C : CtxClass σ) (tid : ThreadId)
    (p : PDict) (h : Heap σ) (m : List (ThreadId × ObjId)) (s0 : σ) (e : Exc)
    (hm : alookup p mtdictName = some (PyVal.vdict m))
    (hla : alookup m tid = none) (hfr : C.mkFresh = Except.ok s0)
    (hnone : alookup h.objs h.next = none)
    (hent : C.enter s0 = Except.error e) :
    MultiThreadWrapper.enter C tid p h =
      ((aset p mtdictName (PyVal.vdict (m ++ [(tid, h.next)])),
        ⟨h.objs ++ [(h.next, s0)], h.next + 1⟩), Except.error e) := by
  simp only [MultiThreadWrapper.enter, ddGetitem, hm, hla, hfr,
    alookup_append_none h.objs [(h.next, s0)] h.next hnone]
  simp [alookup, hent]

theorem mtw_enter_factoryErr {σ : Type} (C : CtxClass σ) (tid : ThreadId)
    (p : PDict) (h : Heap σ) (m : List (ThreadId × ObjId)) (e : Exc)
    (hm : alookup p mtdictName = some (PyVal.vdict m))
    (hla : alookup m tid = none) (hfr : C.mkFresh = Except.error e) :
    MultiThreadWrapper.enter C tid p h = ((p, h), Except.error e) := by
  simp only [MultiThreadWrapper.enter, ddGetitem, hm, hla, hfr,
    aset_eq_of_alookup p mtdictName (PyVal.vdict m) hm]

theorem mtw_exitm_found_ok {σ : Type} (C : CtxClass σ) (tid : ThreadId)
    (p : PDict) (h : Heap σ) (einfo : Option Exc)
    (m : List (ThreadId × ObjId)) (o : ObjId) (s s2 : σ) (v : PyVal)
    (hm : alookup p mtdictName = some (PyVal.vdict m))
    (hla : alookup m tid = some o) (hho : alookup h.objs o = some s)
    (hex : C.exitm s einfo = Except.ok (v, s2)) :
    MultiThreadWrapper.exitm C tid p h einfo =
      ((p, ⟨aset h.objs o s2, h.next⟩), Except.ok v) := by
  simp only [MultiThreadWrapper.exitm, ddGetitem, hm, hla, hho, hex,
    aset_eq_of_alookup p mtdictName (PyVal.vdict m) hm]

theorem mtw_exitm_found_err {σ : Type} (C : CtxClass σ) (tid : ThreadId)
    (p : PDict) (h : Heap σ) (einfo : Option Exc)
    (m : List (ThreadId × ObjId)) (o : ObjId) (s : σ) (e : Exc)
    (hm : alookup p mtdictName = some (PyVal.vdict m))
    (hla : alookup m tid = some o) (hho : alookup h.objs o = some s)
    (hex : C.exitm s einfo = Except.error e) :
    MultiThreadWrapper.exitm C tid p h einfo = ((p, h), Except.error e) := by
  simp only [MultiThreadWrapper.exitm, ddGetitem, hm, hla, hho, hex,
    aset_eq_of_alookup p mtdictName (PyVal.vdict m) hm]

theorem mtw_exitm_new_ok {σ : Type} (C : CtxClass σ) (tid : ThreadId)
    (p : PDict) (h : Heap σ) (einfo : Option Exc)
    (m : List (ThreadId × ObjId)) (s0 s2 : σ) (v : PyVal)
    (hm : alookup p mtdictName = some (PyVal.vdict m))
    (hla : alookup m tid = none) (hfr : C.mkFresh = Except.ok s0)
    (hnone : alookup h.objs h.next = none)
    (hex : C.exitm s0 einfo = Except.ok (v, s2)) :
    MultiThreadWrapper.exitm C tid p h einfo =
      ((aset p mtdictName (PyVal.vdict (m ++ [(tid, h.next)])),
        ⟨aset (h.objs ++ [(h.next, s0)]) h.next s2, h.next + 1⟩),
        Except.ok v) := by
  simp only [MultiThreadWrapper.exitm, ddGetitem, hm, hla, hfr,
    alookup_append_none h.objs [(h.next, s0)] h.next hnone]
  simp [alookup, hex]

theorem mtw_exitm_new_err {σ : Type} (C : CtxClass σ) (tid : ThreadId)
    (p : PDict) (h : Heap σ) (einfo : Option Exc)
    (m : List (ThreadId × ObjId)) (s0 : σ) (e : Exc)
    (hm : alookup p mtdictName = some (PyVal.vdict m))
    (hla : alookup m tid = none) (hfr : C.mkFresh = Except.ok s0)
    (hnone : alookup h.objs h.next = none)
    (hex : C.exitm s0 einfo = Except.error e) :
    MultiThreadWrapper.exitm C tid p h einfo =
      ((aset p mtdictName (PyVal.vdict (m ++ [(tid, h.next)])),
        ⟨h.objs ++ [(h.next, s0)], h.next + 1⟩), Except.error e) := by
  simp only [MultiThreadWrapper.exitm, ddGetitem, hm, hla, hfr,
    alookup_append_none h.objs [(h.next, s0)] h.next hnone]
  simp [alookup, hex]

theorem mtw_exitm_factoryErr {σ : Type} (C : CtxClass σ) (tid : ThreadId)
    (p : PDict) (h : Heap σ) (einfo : Option Exc)
    (m : List (ThreadId × ObjId)) (e : Exc)
    (hm : alookup p mtdictName = some (PyVal.vdict m))
    (hla : alookup m tid = none) (hfr : C.mkFresh = Except.error e) :
    MultiThreadWrapper.exitm C tid p h einfo = ((p, h), Except.error e) := by
  simp only [MultiThreadWrapper.exitm, ddGetitem, hm, hla, hfr,
    aset_eq_of_alookup p mtdictName (PyVal.vdict m) hm]

theorem wfB_resolve {σ : Type} (m : List (ThreadId × ObjId)) (h : Heap σ)
    (t : ThreadId) (o : ObjId) (hwf : wfB m h = true)
    (hla : alookup m t = some o) : ∃ s, alookup h.objs o = some s := by
  simp only [wfB, Bool.and_eq_true] at hwf
  have := List.all_eq_true.mp hwf.1.1.2 _ (alookup_mem m t o hla)
  simp only [Bool.and_eq_true] at this
  exact Option.isSome_iff_exists.mp this.2

theorem wfB_next_none {σ : Type} (m : List (ThreadId × ObjId)) (h : Heap σ)
    (hwf : wfB m h = true) : alookup h.objs h.next = none := by
  simp only [wfB, Bool.and_eq_true] at hwf
  exact alookup_none_of_all_lt h.objs h.next hwf.2

theorem wfB_ext_lookup {σ : Type} (m : List (ThreadId × ObjId)) (h : Heap σ)
    (s0 : σ) (hwf : wfB m h = true) :
    alookup (h.objs ++ [(h.next, s0)]) h.next = some s0 := by
  rw [alookup_append_none h.objs [(h.next, s0)] h.next (wfB_next_none m h hwf)]
  simp [alookup]

/-- One proxy operation from thread `t` either leaves the per-thread
dictionary unchanged (when `t` already has an instance; the heap's
allocation counter does not move, so the factory is not called) or extends
it with exactly one fresh instance for `t` (first touch; the counter moves
by exactly one factory call).  Well-formedness is preserved either way. -/
theorem stepState_analysis {σ : Type} (C : CtxClass σ) (s0 : σ)
    (hfr : C.mkFresh = Except.ok s0) (t : ThreadId) (a : Act)
    (ha : a.noReservedWrite = true) (p : PDict) (h : Heap σ)
    (m : List (ThreadId × ObjId))
    (hm : alookup p mtdictName = some (PyVal.vdict m))
    (hwf : wfB m h = true) :
    ((alookup m t).isSome = true →
       alookup (stepState C (p, h) t a).1 mtdictName = some (PyVal.vdict m)
       ∧ (stepState C (p, h) t a).2.next = h.next
       ∧ wfB m (stepState C (p, h) t a).2 = true)
  ∧ (alookup m t = none →
       alookup (stepState C (p, h) t a).1 mtdictName
         = some (PyVal.vdict (m ++ [(t, h.next)]))
       ∧ (stepState C (p, h) t a).2.next = h.next + 1
       ∧ wfB (m ++ [(t, h.next)]) (stepState C (p, h) t a).2 = true) := by
  have hext := wfB_ext_lookup m h s0 hwf
  have hnone := wfB_next_none m h hwf
  cases a with
  | read attr =>
    constructor
    · intro hsome
      obtain ⟨o, hla⟩ := Option.isSome_iff_exists.mp hsome
      obtain ⟨s, hho⟩ := wfB_resolve m h t o hwf hla
      simp only [stepState, mtw_getattr_found C t p h attr m o s hm hla hho]
      exact ⟨hm, by trivial, hwf⟩
    · intro hla
      simp only [stepState, mtw_getattr_new C t p h attr m s0 hm hla hfr hnone]
      exact ⟨alookup_aset_self p mtdictName _, by trivial,
        wfB_extend m h t s0 hwf hla⟩
  | write attr v =>
    simp only [Act.noReservedWrite, Bool.not_eq_true', decide_eq_false_iff_not]
      at ha
    constructor
    · intro hsome
      obtain ⟨o, hla⟩ := Option.isSome_iff_exists.mp hsome
      obtain ⟨s, hho⟩ := wfB_resolve m h t o hwf hla
      cases hset : C.setattr s attr v with
      | ok s2 =>
        simp only [stepState,
          mtw_setattr_found_ok C t p h attr v m o s s2 ha hm hla hho hset]
        refine ⟨hm, by trivial, ?_⟩
        exact wfB_aset_obj m h o s2 hwf (by rw [hho]; rfl)
      | error e =>
        simp only [stepState,
          mtw_setattr_found_err C t p h attr v m o s e ha hm hla hho hset]
        exact ⟨hm, by trivial, hwf⟩
    · intro hla
      cases hset : C.setattr s0 attr v with
      | ok s2 =>
        simp only [stepState,
          mtw_setattr_new_ok C t p h attr v m s0 s2 ha hm hla hfr hnone hset]
        refine ⟨alookup_aset_self p mtdictName _, by trivial, ?_⟩
        exact wfB_aset_obj (m ++ [(t, h.next)])
          ⟨h.objs ++ [(h.next, s0)], h.next + 1⟩ h.next s2
          (wfB_extend m h t s0 hwf hla) (by rw [hext]; rfl)
      | error e =>
        simp only [stepState,
          mtw_setattr_new_err C t p h attr v m s0 e ha hm hla hfr hnone hset]
        exact ⟨alookup_aset_self p mtdictName _, by trivial,
          wfB_extend m h t s0 hwf hla⟩
  | enter =>
    constructor
    · intro hsome
      obtain ⟨o, hla⟩ := Option.isSome_iff_exists.mp hsome
      obtain ⟨s, hho⟩ := wfB_resolve m h t o hwf hla
      cases hent : C.enter s with
      | ok vs =>
        obtain ⟨v, s2⟩ := vs
        simp only [stepState,
          mtw_enter_found_ok C t p h m o s s2 v hm hla hho hent]
        refine ⟨hm, by trivial, ?_⟩
        exact wfB_aset_obj m h o s2 hwf (by rw [hho]; rfl)
      | error e =>
        simp only [stepState,
          mtw_enter_found_err C t p h m o s e hm hla hho hent]
        exact ⟨hm, by trivial, hwf⟩
    · intro hla
      cases hent : C.enter s0 with
      | ok vs =>
        obtain ⟨v, s2⟩ := vs
        simp only [stepState,
          mtw_enter_new_ok C t p h m s0 s2 v hm hla hfr hnone hent]
        refine ⟨alookup_aset_self p mtdictName _, by trivial, ?_⟩
        exact wfB_aset_obj (m ++ [(t, h.next)])
          ⟨h.objs ++ [(h.next, s0)], h.next + 1⟩ h.next s2
          (wfB_extend m h t s0 hwf hla) (by rw [hext]; rfl)
      | error e =>
        simp only [stepState,
          mtw_enter_new_err C t p h m s0 e hm hla hfr hnone hent]
        exact ⟨alookup_aset_self p mtdictName _, by trivial,
          wfB_extend m h t s0 hwf hla⟩
  | exitm einfo =>
    constructor
    · intro hsome
      obtain ⟨o, hla⟩ := Option.isSome_iff_exists.mp hsome
      obtain ⟨s, hho⟩ := wfB_resolve m h t o hwf hla
      cases hex : C.exitm s einfo with
      | ok vs =>
        obtain ⟨v, s2⟩ := vs
        simp only [stepState,
          mtw_exitm_found_ok C t p h einfo m o s s2 v hm hla hho hex]
        refine ⟨hm, by trivial, ?_⟩
        exact wfB_aset_obj m h o s2 hwf (by rw [hho]; rfl)
      | error e =>
        simp only [stepState,
          mtw_exitm_found_err C t p h einfo m o s e hm hla hho hex]
        exact ⟨hm, by trivial, hwf⟩
    · intro hla
      cases hex : C.exitm s0 einfo with
      | ok vs =>
        obtain ⟨v, s2⟩ := vs
        simp only [stepState,
          mtw_exitm_new_ok C t p h einfo m s0 s2 v hm hla hfr hnone hex]
        refine ⟨alookup_aset_self p mtdictName _, by trivial, ?_⟩
        exact wfB_aset_obj (m ++ [(t, h.next)])
          ⟨h.objs ++ [(h.next, s0)], h.next + 1⟩ h.next s2
          (wfB_extend m h t s0 hwf hla) (by rw [hext]; rfl)
      | error e =>
        simp only [stepState,
          mtw_exitm_new_err C t p h einfo m s0 e hm hla hfr hnone hex]
        exact ⟨alookup_aset_self p mtdictName _, by trivial,
          wfB_extend m h t s0 hwf hla⟩

theorem alookup_append_single_isSome {κ α : Type} [DecidableEq κ]
    (m : List (κ × α)) (k t : κ) (o : α) :
    (alookup (m ++ [(k, o)]) t).isSome = true
      ↔ (alookup m t).isSome = true ∨ t = k := by
  cases hmt : alookup m t with
  | some v =>
    rw [alookup_append_some m [(k, o)] t v hmt]
    simp
  | none =>
    rw [alookup_append_none m [(k, o)] t hmt]
    by_cases hkt : k = t
    · simp [alookup, hkt]
    · simp only [alookup, hkt, if_false, Option.isSome_none,
        Bool.false_eq_true, false_iff, false_or]
      exact fun hh => hkt hh.symm

/-- Invariant of every sequential execution against a freshly constructed
`MultiThreadWrapper` (no reserved-name writes, factory total): the proxy
still holds a well-formed per-thread dictionary, its size equals the number
of factory calls made so far (the heap allocation counter), and it has an
entry exactly for the thread identities that have appeared in the trace. -/
theorem mtwRunInv {σ : Type} (C : CtxClass σ) (s0 : σ)
    (hfr : C.mkFresh = Except.ok s0) (tr : List (ThreadId × Act))
    (htr : tr.all (fun ta => ta.2.noReservedWrite) = true) :
    ∃ m, alookup (runTrace C tr).1 mtdictName = some (PyVal.vdict m)
      ∧ wfB m (runTrace C tr).2 = true
      ∧ m.length = (runTrace C tr).2.next
      ∧ ∀ t, ((alookup m t).isSome = true ↔ t ∈ tr.map Prod.fst) := by
  induction tr using List.reverseRecOn with
  | nil =>
    refine ⟨[], ?_, ?_, ?_, ?_⟩
    · simp [runTrace, MultiThreadWrapper.mtwInit, alookup]
    · rfl
    · rfl
    · intro t
      simp [alookup]
  | append_singleton tr ta ih =>
    rw [List.all_append] at htr
    simp only [Bool.and_eq_true] at htr
    obtain ⟨htr1, hta⟩ := htr
    simp only [List.all_cons, List.all_nil, Bool.and_true] at hta
    obtain ⟨m, hm, hwf, hlen, hmem⟩ := ih htr1
    have hst : runTrace C (tr ++ [ta]) =
        stepState C (runTrace C tr) ta.1 ta.2 := by
      simp [runTrace, List.foldl_append]
    have hstep := stepState_analysis C s0 hfr ta.1 ta.2 hta
      (runTrace C tr).1 (runTrace C tr).2 m hm hwf
    rw [Prod.mk.eta] at hstep
    by_cases hcase : (alookup m ta.1).isSome = true
    · obtain ⟨hm2, hnext2, hwf2⟩ := hstep.1 hcase
      refine ⟨m, by rw [hst]; exact hm2, by rw [hst]; exact hwf2,
        by rw [hst, hnext2]; exact hlen, ?_⟩
      intro t
      rw [List.map_append, List.mem_append]
      constructor
      · intro hh
        exact Or.inl ((hmem t).mp hh)
      · intro hh
        rcases hh with hh | hh
        · exact (hmem t).mpr hh
        · simp at hh
          rw [hh]
          exact hcase
    · have hnone2 : alookup m ta.1 = none :=
        Option.not_isSome_iff_eq_none.mp (by simpa using hcase)
      obtain ⟨hm2, hnext2, hwf2⟩ := hstep.2 hnone2
      refine ⟨m ++ [(ta.1, (runTrace C tr).2.next)],
        by rw [hst]; exact hm2, by rw [hst]; exact hwf2, ?_, ?_⟩
      · rw [hst, hnext2, List.length_append, hlen]
        rfl
      · intro t
        rw [alookup_append_single_isSome m ta.1 t (runTrace C tr).2.next]
        rw [List.map_append, List.mem_append]
        constructor
        · intro hh
          rcases hh with hh | hh
          · exact Or.inl ((hmem t).mp hh)
          · right
            simp [hh]
        · intro hh
          rcases hh with hh | hh
          · exact Or.inl ((hmem t).mpr hh)
          · right
            simpa using hh

/-- Once a thread identity has been bound to an instance, every later
operation (by any thread, reserved-name writes aside) leaves that binding
untouched: the same instance keeps serving that identity. -/
theorem mtwRunStable {σ : Type} (C : CtxClass σ) (s0 : σ)
    (hfr : C.mkFresh = Except.ok s0) (tr1 tr2 : List (ThreadId × Act))
    (htr1 : tr1.all (fun ta => ta.2.noReservedWrite) = true)
    (htr2 : tr2.all (fun ta => ta.2.noReservedWrite) = true)
    (t : ThreadId) (o : ObjId)
    (hres : alookup (mapOf (runTrace C tr1)) t = some o) :
    alookup (mapOf (runTrace C (tr1 ++ tr2))) t = some o := by
  induction tr2 using List.reverseRecOn with
  | nil => simpa using hres
  | append_singleton tr2 ta ih =>
    rw [List.all_append] at htr2
    simp only [Bool.and_eq_true] at htr2
    obtain ⟨htr2a, hta⟩ := htr2
    simp only [List.all_cons, List.all_nil, Bool.and_true] at hta
    obtain ⟨m, hm, hwf, _, _⟩ := mtwRunInv C s0 hfr (tr1 ++ tr2)
      (by rw [List.all_append, htr1, htr2a]; rfl)
    have hres2 := ih htr2a
    have hmof : mapOf (runTrace C (tr1 ++ tr2)) = m := by
      simp [mapOf, hm]
    rw [hmof] at hres2
    have hst : runTrace C (tr1 ++ (tr2 ++ [ta])) =
        stepState C (runTrace C (tr1 ++ tr2)) ta.1 ta.2 := by
      rw [← List.append_assoc]
      simp [runTrace, List.foldl_append]
    have hstep := stepState_analysis C s0 hfr ta.1 ta.2 hta
      (runTrace C (tr1 ++ tr2)).1 (runTrace C (tr1 ++ tr2)).2 m hm hwf
    rw [Prod.mk.eta] at hstep
    by_cases hcase : (alookup m ta.1).isSome = true
    · obtain ⟨hm2, _, _⟩ := hstep.1 hcase
      rw [hst]
      simp only [mapOf, hm2]
      exact hres2
    · have hnone2 : alookup m ta.1 = none :=
        Option.not_isSome_iff_eq_none.mp (by simpa using hcase)
      obtain ⟨hm2, _, _⟩ := hstep.2 hnone2
      rw [hst]
      simp only [mapOf, hm2]
      exact alookup_append_some m _ t o hres2

/-- C10: in `MultiThreadWrapperWithMain.__setattr__` the check for the name
`'main_thread'` precedes the main-thread check, so a write to that name from
any thread (the theorem quantifies over arbitrary `tid` and `mainTid`,
related or not) replaces the designated main instance directly on the proxy,
leaves the heap (hence every worker's private instance) unchanged, and
leaves the per-thread dictionary binding unchanged; it is never forwarded to
the writing thread's own instance. -/
theorem C10_main_replace_any_thread {σ : Type} (C : CtxClass σ)
    (mainTid tid : ThreadId) (p : PDict) (h : Heap σ) (v : PyVal) :
    MultiThreadWrapperWithMain.setattr C mainTid tid p h mainName v
      = ((aset p mainName v, h), Except.ok ())
    ∧ alookup (aset p mainName v) mainName = some v
    ∧ alookup (aset p mainName v) mtdictName = alookup p mtdictName := by
  refine ⟨?_, alookup_aset_self p mainName v,
    alookup_aset_ne p mainName mtdictName v (by decide)⟩
  rw [MultiThreadWrapperWithMain.setattr]
  rw [if_neg (by decide), if_pos rfl]

/-- C9: `__getattr__` is only a fallback for names not found on the proxy
object itself, so reading `'main_thread'` on a `MultiThreadWrapperWithMain`
from any thread returns the stored main-instance value and reading the
mangled dictionary name returns the stored dictionary (on either class),
with no state change and no forwarding to any thread's private instance —
for every wrapped context type `C`, including one defining attributes of
the same names. -/
theorem C9_reserved_read_bypass {σ : Type} (C : CtxClass σ)
    (mainTid tid : ThreadId) (p : PDict) (h : Heap σ) (vm vd : PyVal)
    (hmain : alookup p mainName = some vm)
    (hdict : alookup p mtdictName = some vd) :
    pyReadMTWM C mainTid tid p h mainName = ((p, h), Except.ok vm)
    ∧ pyReadMTWM C mainTid tid p h mtdictName = ((p, h), Except.ok vd)
    ∧ pyReadMTW C tid p h mtdictName = ((p, h), Except.ok vd) := by
  refine ⟨?_, ?_, ?_⟩
  · simp only [pyReadMTWM, hmain]
  · simp only [pyReadMTWM, hdict]
  · simp only [pyReadMTW, hdict]

/-- C9 witness: concrete proxy with a worker instance for thread 1 and a
main instance, read from worker thread 5 and main thread 0. -/
theorem C9_reserved_read_bypass_witness :
    (alookup [(mtdictName, PyVal.vdict [(1, 0)]), (mainName, PyVal.vobj 1)]
        mainName = some (PyVal.vobj 1))
    ∧ (alookup [(mtdictName, PyVal.vdict [(1, 0)]), (mainName, PyVal.vobj 1)]
        mtdictName = some (PyVal.vdict [(1, 0)]))
    ∧ (pyReadMTWM counterClass 0 5
        [(mtdictName, PyVal.vdict [(1, 0)]), (mainName, PyVal.vobj 1)]
        (⟨[(0, []), (1, [])], 2⟩ : Heap Attrs) mainName
        = (([(mtdictName, PyVal.vdict [(1, 0)]), (mainName, PyVal.vobj 1)],
            ⟨[(0, []), (1, [])], 2⟩), Except.ok (PyVal.vobj 1))
      ∧ pyReadMTWM counterClass 0 5
        [(mtdictName, PyVal.vdict [(1, 0)]), (mainName, PyVal.vobj 1)]
        (⟨[(0, []), (1, [])], 2⟩ : Heap Attrs) mtdictName
        = (([(mtdictName, PyVal.vdict [(1, 0)]), (mainName, PyVal.vobj 1)],
            ⟨[(0, []), (1, [])], 2⟩), Except.ok (PyVal.vdict [(1, 0)]))
      ∧ pyReadMTW counterClass 5
        [(mtdictName, PyVal.vdict [(1, 0)]), (mainName, PyVal.vobj 1)]
        (⟨[(0, []), (1, [])], 2⟩ : Heap Attrs) mtdictName
        = (([(mtdictName, PyVal.vdict [(1, 0)]), (mainName, PyVal.vobj 1)],
            ⟨[(0, []), (1, [])], 2⟩), Except.ok (PyVal.vdict [(1, 0)]))) :=
  ⟨by decide, by decide,
    C9_reserved_read_bypass counterClass 0 5
      [(mtdictName, PyVal.vdict [(1, 0)]), (mainName, PyVal.vobj 1)]
      ⟨[(0, []), (1, [])], 2⟩ (PyVal.vobj 1) (PyVal.vdict [(1, 0)])
      (by decide) (by decide)⟩

/-- C4: `MultiThreadWrapper.__setattr__` stores a write of the one reserved
name `'_MultiThreadWrapper__mtdict'` directly on the proxy object (heap —
and hence every thread's instance — untouched) and forwards a write of any
other name to the calling thread's private instance;
`MultiThreadWrapperWithMain.__setattr__` delegates the mangled name to the
base-class behaviour and additionally intercepts exactly `'main_thread'`,
storing it directly on the proxy. -/
theorem C4_reserved_write_interception {σ : Type} (C : CtxClass σ)
    (mainTid tid : ThreadId) (p : PDict) (h : Heap σ) (v : PyVal)
    (attr : String) (m : List (ThreadId × ObjId)) (o : ObjId) (s s2 : σ)
    (hattr : attr ≠ mtdictName)
    (hm : alookup p mtdictName = some (PyVal.vdict m))
    (hla : alookup m tid = some o) (hho : alookup h.objs o = some s)
    (hset : C.setattr s attr v = Except.ok s2) :
    MultiThreadWrapper.setattr C tid p h mtdictName v
      = ((aset p mtdictName v, h), Except.ok ())
    ∧ MultiThreadWrapperWithMain.setattr C mainTid tid p h mtdictName v
      = MultiThreadWrapper.setattr C tid p h mtdictName v
    ∧ MultiThreadWrapperWithMain.setattr C mainTid tid p h mainName v
      = ((aset p mainName v, h), Except.ok ())
    ∧ MultiThreadWrapper.setattr C tid p h attr v
      = ((p, ⟨aset h.objs o s2, h.next⟩), Except.ok ()) := by
  refine ⟨mtw_setattr_reserved C tid p h v, ?_, ?_,
    mtw_setattr_found_ok C tid p h attr v m o s s2 hattr hm hla hho hset⟩
  · rw [MultiThreadWrapperWithMain.setattr, if_pos rfl]
  · rw [MultiThreadWrapperWithMain.setattr]
    rw [if_neg (by decide), if_pos rfl]

/-- C4 witness: worker thread 1 writing the reserved names and the ordinary
name `"counter"` on a concrete proxy. -/
theorem C4_reserved_write_interception_witness :
    ("counter" ≠ mtdictName)
    ∧ (alookup [(mtdictName, PyVal.vdict [(1, 0)])] mtdictName
        = some (PyVal.vdict [(1, 0)]))
    ∧ (alookup [(1, 0)] 1 = some 0)
    ∧ (alookup ([(0, ([] : Attrs))]) 0 = some [])
    ∧ (counterClass.setattr [] "counter" (PyVal.vnat 5)
        = Except.ok [("counter", PyVal.vnat 5)])
    ∧ (MultiThreadWrapper.setattr counterClass 1
        [(mtdictName, PyVal.vdict [(1, 0)])] ⟨[(0, [])], 1⟩ mtdictName
        (PyVal.vnat 5)
      = (([(mtdictName, PyVal.vnat 5)], ⟨[(0, [])], 1⟩), Except.ok ())
      ∧ MultiThreadWrapperWithMain.setattr counterClass 0 1
        [(mtdictName, PyVal.vdict [(1, 0)])] ⟨[(0, [])], 1⟩ mtdictName
        (PyVal.vnat 5)
        = MultiThreadWrapper.setattr counterClass 1
          [(mtdictName, PyVal.vdict [(1, 0)])] ⟨[(0, [])], 1⟩ mtdictName
          (PyVal.vnat 5)
      ∧ MultiThreadWrapperWithMain.setattr counterClass 0 1
        [(mtdictName, PyVal.vdict [(1, 0)])] ⟨[(0, [])], 1⟩ mainName
        (PyVal.vnat 5)
        = (([(mtdictName, PyVal.vdict [(1, 0)]), (mainName, PyVal.vnat 5)],
            ⟨[(0, [])], 1⟩), Except.ok ())
      ∧ MultiThreadWrapper.setattr counterClass 1
        [(mtdictName, PyVal.vdict [(1, 0)])] ⟨[(0, [])], 1⟩ "counter"
        (PyVal.vnat 5)
        = (([(mtdictName, PyVal.vdict [(1, 0)])],
            ⟨[(0, [("counter", PyVal.vnat 5)])], 1⟩), Except.ok ())) :=
  ⟨by decide, by decide, by decide, by decide, rfl,
    C4_reserved_write_interception counterClass 0 1
      [(mtdictName, PyVal.vdict [(1, 0)])] ⟨[(0, [])], 1⟩ (PyVal.vnat 5)
      "counter" [(1, 0)] 0 [] [("counter", PyVal.vnat 5)]
      (by decide) (by decide) (by decide) (by decide) rfl⟩

/-- C6: for an attribute name not resolvable on the proxy object itself, the
full Python read falls through to `__getattr__`, which resolves the calling
thread's private instance in the per-thread dictionary — reusing it when
present, creating it (one fresh instance from the factory) when absent —
and returns exactly the result of reading the name on that instance. -/
theorem C6_read_forwarding {σ : Type} (C : CtxClass σ) (tid : ThreadId)
    (p : PDict) (h : Heap σ) (attr : String) (m : List (ThreadId × ObjId))
    (s0 : σ) (hp : alookup p attr = none)
    (hm : alookup p mtdictName = some (PyVal.vdict m))
    (hwf : wfB m h = true) (hfr : C.mkFresh = Except.ok s0) :
    pyReadMTW C tid p h attr = MultiThreadWrapper.getattr C tid p h attr
    ∧ (∀ o s, alookup m tid = some o → alookup h.objs o = some s →
        pyReadMTW C tid p h attr = ((p, h), C.getattr s attr))
    ∧ (alookup m tid = none →
        pyReadMTW C tid p h attr =
          ((aset p mtdictName (PyVal.vdict (m ++ [(tid, h.next)])),
            ⟨h.objs ++ [(h.next, s0)], h.next + 1⟩), C.getattr s0 attr)) := by
  have hfall : pyReadMTW C tid p h attr =
      MultiThreadWrapper.getattr C tid p h attr := by
    simp only [pyReadMTW, hp]
  refine ⟨hfall, ?_, ?_⟩
  · intro o s hla hho
    rw [hfall, mtw_getattr_found C tid p h attr m o s hm hla hho]
  · intro hla
    rw [hfall,
      mtw_getattr_new C tid p h attr m s0 hm hla hfr (wfB_next_none m h hwf)]

/-- C6 witness: thread 8 reading `"counter"` on a state where thread 7
already owns instance 0, so the read creates a fresh instance for 8. -/
theorem C6_read_forwarding_witness :
    (alookup [(mtdictName, PyVal.vdict [(7, 0)])] "counter" = none)
    ∧ (alookup [(mtdictName, PyVal.vdict [(7, 0)])] mtdictName
        = some (PyVal.vdict [(7, 0)]))
    ∧ (wfB [(7, 0)] (⟨[(0, [("counter", PyVal.vnat 3)])], 1⟩ : Heap Attrs)
        = true)
    ∧ (counterClass.mkFresh = Except.ok [])
    ∧ (pyReadMTW counterClass 8 [(mtdictName, PyVal.vdict [(7, 0)])]
        ⟨[(0, [("counter", PyVal.vnat 3)])], 1⟩ "counter"
        = MultiThreadWrapper.getattr counterClass 8
          [(mtdictName, PyVal.vdict [(7, 0)])]
          ⟨[(0, [("counter", PyVal.vnat 3)])], 1⟩ "counter"
      ∧ (∀ o s, alookup [(7, 0)] 8 = some o →
          alookup [(0, [("counter", PyVal.vnat 3)])] o = some s →
          pyReadMTW counterClass 8 [(mtdictName, PyVal.vdict [(7, 0)])]
            ⟨[(0, [("counter", PyVal.vnat 3)])], 1⟩ "counter"
            = (([(mtdictName, PyVal.vdict [(7, 0)])],
                ⟨[(0, [("counter", PyVal.vnat 3)])], 1⟩),
               counterClass.getattr s "counter"))
      ∧ (alookup [(7, 0)] 8 = none →
          pyReadMTW counterClass 8 [(mtdictName, PyVal.vdict [(7, 0)])]
            ⟨[(0, [("counter", PyVal.vnat 3)])], 1⟩ "counter"
            = ((aset [(mtdictName, PyVal.vdict [(7, 0)])] mtdictName
                  (PyVal.vdict ([(7, 0)] ++ [(8, 1)])),
                ⟨[(0, [("counter", PyVal.vnat 3)])] ++ [(1, [])], 2⟩),
               counterClass.getattr [] "counter"))) :=
  ⟨by decide, by decide, by decide, rfl,
    C6_read_forwarding counterClass 8 [(mtdictName, PyVal.vdict [(7, 0)])]
      ⟨[(0, [("counter", PyVal.vnat 3)])], 1⟩ "counter" [(7, 0)] []
      (by decide) (by decide) (by decide) rfl⟩

/-- C7: on the thread's resolved instance, the proxy's read returns exactly
what the instance-level read returns (value or exception, unchanged); a
proxy write raises exactly the exceptions the instance-level write raises
and succeeds whenever it succeeds; enter and exit return exactly the
instance-level results; and when lazy creation runs a failing factory the
factory's exception propagates unchanged with no state modified.  All of
this holds for every wrapped context class, so the proxy introduces no
error of its own. -/
theorem C7_error_passthrough {σ : Type} (C : CtxClass σ) (tid : ThreadId)
    (p : PDict) (h : Heap σ) (attr : String) (v : PyVal)
    (m : List (ThreadId × ObjId)) (o : ObjId) (s : σ)
    (hattr : attr ≠ mtdictName)
    (hm : alookup p mtdictName = some (PyVal.vdict m))
    (hla : alookup m tid = some o) (hho : alookup h.objs o = some s) :
    (MultiThreadWrapper.getattr C tid p h attr).2 = C.getattr s attr
    ∧ (∀ e, (MultiThreadWrapper.setattr C tid p h attr v).2 = Except.error e
        ↔ C.setattr s attr v = Except.error e)
    ∧ (∀ s2, C.setattr s attr v = Except.ok s2 →
        (MultiThreadWrapper.setattr C tid p h attr v).2 = Except.ok ())
    ∧ (MultiThreadWrapper.enter C tid p h).2 = (C.enter s).map Prod.fst
    ∧ (∀ einfo, (MultiThreadWrapper.exitm C tid p h einfo).2
        = (C.exitm s einfo).map Prod.fst)
    ∧ (∀ t2 e, alookup m t2 = none → C.mkFresh = Except.error e →
        MultiThreadWrapper.getattr C t2 p h attr = ((p, h), Except.error e)) := by
  refine ⟨?_, ?_, ?_, ?_, ?_, ?_⟩
  · rw [mtw_getattr_found C tid p h attr m o s hm hla hho]
  · intro e
    cases hs : C.setattr s attr v with
    | ok s2 =>
      rw [mtw_setattr_found_ok C tid p h attr v m o s s2 hattr hm hla hho hs]
      simp
    | error e2 =>
      rw [mtw_setattr_found_err C tid p h attr v m o s e2 hattr hm hla hho hs]
      simp
  · intro s2 hs
    rw [mtw_setattr_found_ok C tid p h attr v m o s s2 hattr hm hla hho hs]
  · cases hs : C.enter s with
    | ok vs =>
      obtain ⟨vv, s2⟩ := vs
      rw [mtw_enter_found_ok C tid p h m o s s2 vv hm hla hho hs]
      rfl
    | error e =>
      rw [mtw_enter_found_err C tid p h m o s e hm hla hho hs]
      rfl
  · intro einfo
    cases hs : C.exitm s einfo with
    | ok vs =>
      obtain ⟨vv, s2⟩ := vs
      rw [mtw_exitm_found_ok C tid p h einfo m o s s2 vv hm hla hho hs]
      rfl
    | error e =>
      rw [mtw_exitm_found_err C tid p h einfo m o s e hm hla hho hs]
      rfl
  · intro t2 e hla2 hfr
    exact mtw_getattr_factoryErr C t2 p h attr m e hm hla2 hfr

/-- C7 witness: thread 1 with resolved instance holding `counter = 2`. -/
theorem C7_error_passthrough_witness :
    ("counter" ≠ mtdictName)
    ∧ (alookup [(mtdictName, PyVal.vdict [(1, 0)])] mtdictName
        = some (PyVal.vdict [(1, 0)]))
    ∧ (alookup [(1, 0)] 1 = some 0)
    ∧ (alookup [(0, [("counter", PyVal.vnat 2)])] 0
        = some [("counter", PyVal.vnat 2)])
    ∧ ((MultiThreadWrapper.getattr counterClass 1
          [(mtdictName, PyVal.vdict [(1, 0)])]
          (⟨[(0, [("counter", PyVal.vnat 2)])], 1⟩ : Heap Attrs) "counter").2
        = counterClass.getattr [("counter", PyVal.vnat 2)] "counter"
      ∧ (∀ e, (MultiThreadWrapper.setattr counterClass 1
            [(mtdictName, PyVal.vdict [(1, 0)])]
            ⟨[(0, [("counter", PyVal.vnat 2)])], 1⟩ "counter"
            (PyVal.vnat 4)).2 = Except.error e
          ↔ counterClass.setattr [("counter", PyVal.vnat 2)] "counter"
              (PyVal.vnat 4) = Except.error e)
      ∧ (∀ s2, counterClass.setattr [("counter", PyVal.vnat 2)] "counter"
            (PyVal.vnat 4) = Except.ok s2 →
          (MultiThreadWrapper.setattr counterClass 1
            [(mtdictName, PyVal.vdict [(1, 0)])]
            ⟨[(0, [("counter", PyVal.vnat 2)])], 1⟩ "counter"
            (PyVal.vnat 4)).2 = Except.ok ())
      ∧ (MultiThreadWrapper.enter counterClass 1
          [(mtdictName, PyVal.vdict [(1, 0)])]
          ⟨[(0, [("counter", PyVal.vnat 2)])], 1⟩).2
        = (counterClass.enter [("counter", PyVal.vnat 2)]).map Prod.fst
      ∧ (∀ einfo, (MultiThreadWrapper.exitm counterClass 1
            [(mtdictName, PyVal.vdict [(1, 0)])]
            ⟨[(0, [("counter", PyVal.vnat 2)])], 1⟩ einfo).2
          = (counterClass.exitm [("counter", PyVal.vnat 2)] einfo).map
              Prod.fst)
      ∧ (∀ t2 e, alookup [(1, 0)] t2 = none →
          counterClass.mkFresh = Except.error e →
          MultiThreadWrapper.getattr counterClass t2
            [(mtdictName, PyVal.vdict [(1, 0)])]
            ⟨[(0, [("counter", PyVal.vnat 2)])], 1⟩ "counter"
          = (([(mtdictName, PyVal.vdict [(1, 0)])],
              ⟨[(0, [("counter", PyVal.vnat 2)])], 1⟩), Except.error e))) :=
  ⟨by decide, by decide, by decide, by decide,
    C7_error_passthrough counterClass 1 [(mtdictName, PyVal.vdict [(1, 0)])]
      ⟨[(0, [("counter", PyVal.vnat 2)])], 1⟩ "counter" (PyVal.vnat 4)
      [(1, 0)] 0 [("counter", PyVal.vnat 2)]
      (by decide) (by decide) (by decide) (by decide)⟩

/-- C5: `__enter__` on the proxy returns exactly the value returned by the
resolved instance's `__enter__` (updating only that instance's state), and
`__exit__` passes the exception triple through unchanged and returns exactly
the instance's `__exit__` result; consequently a `with`-block exception is
suppressed through the proxy precisely when the instance's own exit
suppresses it.  On the main thread, the `WithMain` variant delegates to the
designated main instance instead. -/
theorem C5_scoped_delegation {σ : Type} (C : CtxClass σ)
    (mainTid tid : ThreadId) (p : PDict) (h : Heap σ)
    (m : List (ThreadId × ObjId)) (o om : ObjId) (s sm : σ)
    (hm : alookup p mtdictName = some (PyVal.vdict m))
    (hla : alookup m tid = some o) (hho : alookup h.objs o = some s)
    (hmain : alookup p mainName = some (PyVal.vobj om))
    (hom : alookup h.objs om = some sm) :
    (∀ v s2, C.enter s = Except.ok (v, s2) →
        MultiThreadWrapper.enter C tid p h
          = ((p, ⟨aset h.objs o s2, h.next⟩), Except.ok v))
    ∧ (∀ e, C.enter s = Except.error e →
        MultiThreadWrapper.enter C tid p h = ((p, h), Except.error e))
    ∧ (∀ einfo, (MultiThreadWrapper.exitm C tid p h einfo).2
        = (C.exitm s einfo).map Prod.fst)
    ∧ (∀ exc, withOutcome (MultiThreadWrapper.exitm C tid p h (some exc)).2 exc
        = withOutcome ((C.exitm s (some exc)).map Prod.fst) exc)
    ∧ (MultiThreadWrapperWithMain.enter C mainTid mainTid p h).2
        = (C.enter sm).map Prod.fst
    ∧ (∀ einfo, (MultiThreadWrapperWithMain.exitm C mainTid mainTid p h
          einfo).2 = (C.exitm sm einfo).map Prod.fst) := by
  have hexit : ∀ einfo, (MultiThreadWrapper.exitm C tid p h einfo).2
      = (C.exitm s einfo).map Prod.fst := by
    intro einfo
    cases hs : C.exitm s einfo with
    | ok vs =>
      obtain ⟨vv, s2⟩ := vs
      rw [mtw_exitm_found_ok C tid p h einfo m o s s2 vv hm hla hho hs]
      rfl
    | error e =>
      rw [mtw_exitm_found_err C tid p h einfo m o s e hm hla hho hs]
      rfl
  refine ⟨?_, ?_, hexit, ?_, ?_, ?_⟩
  · intro v s2 hs
    exact mtw_enter_found_ok C tid p h m o s s2 v hm hla hho hs
  · intro e hs
    exact mtw_enter_found_err C tid p h m o s e hm hla hho hs
  · intro exc
    rw [hexit (some exc)]
  · rw [MultiThreadWrapperWithMain.enter, if_pos rfl]
    simp only [hmain, hom]
    cases hs : C.enter sm with
    | ok vs =>
      obtain ⟨vv, s2⟩ := vs
      rfl
    | error e => rfl
  · intro einfo
    rw [MultiThreadWrapperWithMain.exitm, if_pos rfl]
    simp only [hmain, hom]
    cases hs : C.exitm sm einfo with
    | ok vs =>
      obtain ⟨vv, s2⟩ := vs
      rfl
    | error e => rfl

/-- C5 witness: worker thread 1 owns instance 0, the main instance is
object 1; both scope operations delegate. -/
theorem C5_scoped_delegation_witness :
    (alookup [(mtdictName, PyVal.vdict [(1, 0)]), (mainName, PyVal.vobj 1)]
        mtdictName = some (PyVal.vdict [(1, 0)]))
    ∧ (alookup [(1, 0)] 1 = some 0)
    ∧ (alookup [(0, [("counter", PyVal.vnat 1)]), (1, ([] : Attrs))] 0
        = some [("counter", PyVal.vnat 1)])
    ∧ (alookup [(mtdictName, PyVal.vdict [(1, 0)]), (mainName, PyVal.vobj 1)]
        mainName = some (PyVal.vobj 1))
    ∧ (alookup [(0, [("counter", PyVal.vnat 1)]), (1, ([] : Attrs))] 1
        = some [])
    ∧ ((∀ v s2, counterClass.enter [("counter", PyVal.vnat 1)]
          = Except.ok (v, s2) →
        MultiThreadWrapper.enter counterClass 1
          [(mtdictName, PyVal.vdict [(1, 0)]), (mainName, PyVal.vobj 1)]
          ⟨[(0, [("counter", PyVal.vnat 1)]), (1, [])], 2⟩
          = (([(mtdictName, PyVal.vdict [(1, 0)]), (mainName, PyVal.vobj 1)],
              ⟨aset [(0, [("counter", PyVal.vnat 1)]), (1, [])] 0 s2, 2⟩),
             Except.ok v))
      ∧ (∀ e, counterClass.enter [("counter", PyVal.vnat 1)]
            = Except.error e →
          MultiThreadWrapper.enter counterClass 1
            [(mtdictName, PyVal.vdict [(1, 0)]), (mainName, PyVal.vobj 1)]
            ⟨[(0, [("counter", PyVal.vnat 1)]), (1, [])], 2⟩
          = (([(mtdictName, PyVal.vdict [(1, 0)]), (mainName, PyVal.vobj 1)],
              ⟨[(0, [("counter", PyVal.vnat 1)]), (1, [])], 2⟩),
             Except.error e))
      ∧ (∀ einfo, (MultiThreadWrapper.exitm counterClass 1
            [(mtdictName, PyVal.vdict [(1, 0)]), (mainName, PyVal.vobj 1)]
            ⟨[(0, [("counter", PyVal.vnat 1)]), (1, [])], 2⟩ einfo).2
          = (counterClass.exitm [("counter", PyVal.vnat 1)] einfo).map
              Prod.fst)
      ∧ (∀ exc, withOutcome ((MultiThreadWrapper.exitm counterClass 1
            [(mtdictName, PyVal.vdict [(1, 0)]), (mainName, PyVal.vobj 1)]
            ⟨[(0, [("counter", PyVal.vnat 1)]), (1, [])], 2⟩ (some exc)).2)
            exc
          = withOutcome ((counterClass.exitm [("counter", PyVal.vnat 1)]
              (some exc)).map Prod.fst) exc)
      ∧ (MultiThreadWrapperWithMain.enter counterClass 0 0
          [(mtdictName, PyVal.vdict [(1, 0)]), (mainName, PyVal.vobj 1)]
          ⟨[(0, [("counter", PyVal.vnat 1)]), (1, [])], 2⟩).2
        = (counterClass.enter []).map Prod.fst
      ∧ (∀ einfo, (MultiThreadWrapperWithMain.exitm counterClass 0 0
            [(mtdictName, PyVal.vdict [(1, 0)]), (mainName, PyVal.vobj 1)]
            ⟨[(0, [("counter", PyVal.vnat 1)]), (1, [])], 2⟩ einfo).2
          = (counterClass.exitm [] einfo).map Prod.fst)) :=
  ⟨by decide, by decide, by decide, by decide, by decide,
    C5_scoped_delegation counterClass 0 1
      [(mtdictName, PyVal.vdict [(1, 0)]), (mainName, PyVal.vobj 1)]
      ⟨[(0, [("counter", PyVal.vnat 1)]), (1, [])], 2⟩
      [(1, 0)] 0 1 [("counter", PyVal.vnat 1)] []
      (by decide) (by decide) (by decide) (by decide) (by decide)⟩

/-- C2: `MultiThreadWrapperWithMain` creates its designated instance with a
single factory call at construction; every operation performed on the main
thread (read, write of a non-reserved name, enter, exit) acts on that
instance directly — the theorems place no constraint on the per-thread
dictionary binding and leave the proxy's `__dict__` unchanged, so the
mapping is neither consulted nor modified — while the same operations from
a non-main thread are exactly the base-class per-identity operations. -/
theorem C2_main_thread_routing {σ : Type} (C : CtxClass σ)
    (mainTid tid : ThreadId) (p : PDict) (h : Heap σ) (om : ObjId)
    (sm s0 : σ) (attr : String) (v : PyVal)
    (hattr1 : attr ≠ mtdictName) (hattr2 : attr ≠ mainName)
    (hmain : alookup p mainName = some (PyVal.vobj om))
    (hom : alookup h.objs om = some sm)
    (hfr : C.mkFresh = Except.ok s0) (hne : tid ≠ mainTid) :
    MultiThreadWrapperWithMain.mtwmInit C h
      = Except.ok (aset MultiThreadWrapper.mtwInit mainName
          (PyVal.vobj h.next), ⟨h.objs ++ [(h.next, s0)], h.next + 1⟩)
    ∧ MultiThreadWrapperWithMain.getattr C mainTid mainTid p h attr
        = ((p, h), C.getattr sm attr)
    ∧ (∀ s2, C.setattr sm attr v = Except.ok s2 →
        MultiThreadWrapperWithMain.setattr C mainTid mainTid p h attr v
          = ((p, ⟨aset h.objs om s2, h.next⟩), Except.ok ()))
    ∧ (∀ vv s2, C.enter sm = Except.ok (vv, s2) →
        MultiThreadWrapperWithMain.enter C mainTid mainTid p h
          = ((p, ⟨aset h.objs om s2, h.next⟩), Except.ok vv))
    ∧ (∀ einfo vv s2, C.exitm sm einfo = Except.ok (vv, s2) →
        MultiThreadWrapperWithMain.exitm C mainTid mainTid p h einfo
          = ((p, ⟨aset h.objs om s2, h.next⟩), Except.ok vv))
    ∧ MultiThreadWrapperWithMain.getattr C mainTid tid p h attr
        = MultiThreadWrapper.getattr C tid p h attr
    ∧ MultiThreadWrapperWithMain.setattr C mainTid tid p h attr v
        = MultiThreadWrapper.setattr C tid p h attr v
    ∧ MultiThreadWrapperWithMain.enter C mainTid tid p h
        = MultiThreadWrapper.enter C tid p h
    ∧ (∀ einfo, MultiThreadWrapperWithMain.exitm C mainTid tid p h einfo
        = MultiThreadWrapper.exitm C tid p h einfo) := by
  refine ⟨?_, ?_, ?_, ?_, ?_, ?_, ?_, ?_, ?_⟩
  · rw [MultiThreadWrapperWithMain.mtwmInit, hfr]
  · rw [MultiThreadWrapperWithMain.getattr, if_pos rfl]
    simp only [hmain, hom]
  · intro s2 hs
    rw [MultiThreadWrapperWithMain.setattr, if_neg hattr1, if_neg hattr2,
      if_pos rfl]
    simp only [hmain, hom, hs]
  · intro vv s2 hs
    rw [MultiThreadWrapperWithMain.enter, if_pos rfl]
    simp only [hmain, hom, hs]
  · intro einfo vv s2 hs
    rw [MultiThreadWrapperWithMain.exitm, if_pos rfl]
    simp only [hmain, hom, hs]
  · rw [MultiThreadWrapperWithMain.getattr, if_neg hne]
  · rw [MultiThreadWrapperWithMain.setattr, if_neg hattr1, if_neg hattr2,
      if_neg hne]
  · rw [MultiThreadWrapperWithMain.enter, if_neg hne]
  · intro einfo
    rw [MultiThreadWrapperWithMain.exitm, if_neg hne]

/-- C2 witness: main thread 0 with main instance 1, worker thread 3. -/
theorem C2_main_thread_routing_witness :
    ("counter" ≠ mtdictName)
    ∧ ("counter" ≠ mainName)
    ∧ (alookup [(mtdictName, PyVal.vdict [(3, 0)]), (mainName, PyVal.vobj 1)]
        mainName = some (PyVal.vobj 1))
    ∧ (alookup [(0, [("counter", PyVal.vnat 8)]), (1, ([] : Attrs))] 1
        = some [])
    ∧ (counterClass.mkFresh = Except.ok [])
    ∧ ((3 : ThreadId) ≠ 0)
    ∧ (MultiThreadWrapperWithMain.mtwmInit counterClass
        (⟨[(0, [("counter", PyVal.vnat 8)]), (1, [])], 2⟩ : Heap Attrs)
      = Except.ok (aset MultiThreadWrapper.mtwInit mainName (PyVal.vobj 2),
          ⟨[(0, [("counter", PyVal.vnat 8)]), (1, [])] ++ [(2, [])], 3⟩)
      ∧ MultiThreadWrapperWithMain.getattr counterClass 0 0
          [(mtdictName, PyVal.vdict [(3, 0)]), (mainName, PyVal.vobj 1)]
          ⟨[(0, [("counter", PyVal.vnat 8)]), (1, [])], 2⟩ "counter"
        = (([(mtdictName, PyVal.vdict [(3, 0)]), (mainName, PyVal.vobj 1)],
            ⟨[(0, [("counter", PyVal.vnat 8)]), (1, [])], 2⟩),
           counterClass.getattr [] "counter")
      ∧ (∀ s2, counterClass.setattr [] "counter" (PyVal.vnat 6)
            = Except.ok s2 →
          MultiThreadWrapperWithMain.setattr counterClass 0 0
            [(mtdictName, PyVal.vdict [(3, 0)]), (mainName, PyVal.vobj 1)]
            ⟨[(0, [("counter", PyVal.vnat 8)]), (1, [])], 2⟩ "counter"
            (PyVal.vnat 6)
          = (([(mtdictName, PyVal.vdict [(3, 0)]), (mainName, PyVal.vobj 1)],
              ⟨aset [(0, [("counter", PyVal.vnat 8)]), (1, [])] 1 s2, 2⟩),
             Except.ok ()))
      ∧ (∀ vv s2, counterClass.enter [] = Except.ok (vv, s2) →
          MultiThreadWrapperWithMain.enter counterClass 0 0
            [(mtdictName, PyVal.vdict [(3, 0)]), (mainName, PyVal.vobj 1)]
            ⟨[(0, [("counter", PyVal.vnat 8)]), (1, [])], 2⟩
          = (([(mtdictName, PyVal.vdict [(3, 0)]), (mainName, PyVal.vobj 1)],
              ⟨aset [(0, [("counter", PyVal.vnat 8)]), (1, [])] 1 s2, 2⟩),
             Except.ok vv))
      ∧ (∀ einfo vv s2, counterClass.exitm [] einfo = Except.ok (vv, s2) →
          MultiThreadWrapperWithMain.exitm counterClass 0 0
            [(mtdictName, PyVal.vdict [(3, 0)]), (mainName, PyVal.vobj 1)]
            ⟨[(0, [("counter", PyVal.vnat 8)]), (1, [])], 2⟩ einfo
          = (([(mtdictName, PyVal.vdict [(3, 0)]), (mainName, PyVal.vobj 1)],
              ⟨aset [(0, [("counter", PyVal.vnat 8)]), (1, [])] 1 s2, 2⟩),
             Except.ok vv))
      ∧ MultiThreadWrapperWithMain.getattr counterClass 0 3
          [(mtdictName, PyVal.vdict [(3, 0)]), (mainName, PyVal.vobj 1)]
          ⟨[(0, [("counter", PyVal.vnat 8)]), (1, [])], 2⟩ "counter"
        = MultiThreadWrapper.getattr counterClass 3
          [(mtdictName, PyVal.vdict [(3, 0)]), (mainName, PyVal.vobj 1)]
          ⟨[(0, [("counter", PyVal.vnat 8)]), (1, [])], 2⟩ "counter"
      ∧ MultiThreadWrapperWithMain.setattr counterClass 0 3
          [(mtdictName, PyVal.vdict [(3, 0)]), (mainName, PyVal.vobj 1)]
          ⟨[(0, [("counter", PyVal.vnat 8)]), (1, [])], 2⟩ "counter"
          (PyVal.vnat 6)
        = MultiThreadWrapper.setattr counterClass 3
          [(mtdictName, PyVal.vdict [(3, 0)]), (mainName, PyVal.vobj 1)]
          ⟨[(0, [("counter", PyVal.vnat 8)]), (1, [])], 2⟩ "counter"
          (PyVal.vnat 6)
      ∧ MultiThreadWrapperWithMain.enter counterClass 0 3
          [(mtdictName, PyVal.vdict [(3, 0)]), (mainName, PyVal.vobj 1)]
          ⟨[(0, [("counter", PyVal.vnat 8)]), (1, [])], 2⟩
        = MultiThreadWrapper.enter counterClass 3
          [(mtdictName, PyVal.vdict [(3, 0)]), (mainName, PyVal.vobj 1)]
          ⟨[(0, [("counter", PyVal.vnat 8)]), (1, [])], 2⟩
      ∧ (∀ einfo, MultiThreadWrapperWithMain.exitm counterClass 0 3
            [(mtdictName, PyVal.vdict [(3, 0)]), (mainName, PyVal.vobj 1)]
            ⟨[(0, [("counter", PyVal.vnat 8)]), (1, [])], 2⟩ einfo
          = MultiThreadWrapper.exitm counterClass 3
            [(mtdictName, PyVal.vdict [(3, 0)]), (mainName, PyVal.vobj 1)]
            ⟨[(0, [("counter", PyVal.vnat 8)]), (1, [])], 2⟩ einfo)) :=
  ⟨by decide, by decide, by decide, by decide, rfl, by decide,
    C2_main_thread_routing counterClass 0 3
      [(mtdictName, PyVal.vdict [(3, 0)]), (mainName, PyVal.vobj 1)]
      ⟨[(0, [("counter", PyVal.vnat 8)]), (1, [])], 2⟩ 1 [] []
      "counter" (PyVal.vnat 6)
      (by decide) (by decide) (by decide) (by decide) rfl (by decide)⟩

/-- C1: on a well-formed `MultiThreadWrapper` state, two distinct thread
identities always resolve to distinct context instances (freshness of the
factory is structural: every lazy creation allocates an unused object id),
and a value written to an attribute from thread `a` lands only in `a`'s
instance: a subsequent read from `a` returns exactly the written instance's
attribute while a read from `b` still returns `b`'s untouched instance's
attribute — e.g. counter 5 for A and counter 9 for B. -/
theorem C1_thread_isolation {σ : Type} (C : CtxClass σ) (a b : ThreadId)
    (p : PDict) (h : Heap σ) (m : List (ThreadId × ObjId)) (attr : String)
    (v : PyVal) (oa ob : ObjId) (sa sb sa2 : σ) (hab : a ≠ b)
    (hm : alookup p mtdictName = some (PyVal.vdict m))
    (hwf : wfB m h = true)
    (hla : alookup m a = some oa) (hlb : alookup m b = some ob)
    (hha : alookup h.objs oa = some sa) (hhb : alookup h.objs ob = some sb)
    (hattr : attr ≠ mtdictName)
    (hset : C.setattr sa attr v = Except.ok sa2) :
    oa ≠ ob
    ∧ MultiThreadWrapper.setattr C a p h attr v
        = ((p, ⟨aset h.objs oa sa2, h.next⟩), Except.ok ())
    ∧ (MultiThreadWrapper.getattr C a p ⟨aset h.objs oa sa2, h.next⟩ attr).2
        = C.getattr sa2 attr
    ∧ (MultiThreadWrapper.getattr C b p ⟨aset h.objs oa sa2, h.next⟩ attr).2
        = C.getattr sb attr := by
  have hnodup : nodupB (m.map Prod.snd) = true := by
    simp only [wfB, Bool.and_eq_true] at hwf
    exact hwf.1.1.1.2
  have hoab : oa ≠ ob := alookup_ne_of_nodup_snd m a b oa ob hnodup hab hla hlb
  refine ⟨hoab,
    mtw_setattr_found_ok C a p h attr v m oa sa sa2 hattr hm hla hha hset,
    ?_, ?_⟩
  · rw [mtw_getattr_found C a p ⟨aset h.objs oa sa2, h.next⟩ attr m oa sa2
      hm hla (alookup_aset_self h.objs oa sa2)]
  · rw [mtw_getattr_found C b p ⟨aset h.objs oa sa2, h.next⟩ attr m ob sb
      hm hlb ?_]
    rw [alookup_aset_ne h.objs oa ob sa2 hoab]
    exact hhb

/-- C1 witness: the spec's example scenario.  Threads A = 0 and B = 1 own
instances 0 and 1; B's counter is already 9; A writes counter 5; then A
reads 5 and B reads 9. -/
theorem C1_thread_isolation_witness :
    ((0 : ThreadId) ≠ 1)
    ∧ (alookup [(mtdictName, PyVal.vdict [(0, 0), (1, 1)])] mtdictName
        = some (PyVal.vdict [(0, 0), (1, 1)]))
    ∧ (wfB [(0, 0), (1, 1)]
        (⟨[(0, []), (1, [("counter", PyVal.vnat 9)])], 2⟩ : Heap Attrs)
        = true)
    ∧ (alookup [(0, 0), (1, 1)] 0 = some 0)
    ∧ (alookup [(0, 0), (1, 1)] 1 = some 1)
    ∧ (alookup [(0, ([] : Attrs)), (1, [("counter", PyVal.vnat 9)])] 0
        = some [])
    ∧ (alookup [(0, ([] : Attrs)), (1, [("counter", PyVal.vnat 9)])] 1
        = some [("counter", PyVal.vnat 9)])
    ∧ ("counter" ≠ mtdictName)
    ∧ (counterClass.setattr [] "counter" (PyVal.vnat 5)
        = Except.ok [("counter", PyVal.vnat 5)])
    ∧ ((0 : ObjId) ≠ 1
      ∧ MultiThreadWrapper.setattr counterClass 0
          [(mtdictName, PyVal.vdict [(0, 0), (1, 1)])]
          ⟨[(0, []), (1, [("counter", PyVal.vnat 9)])], 2⟩ "counter"
          (PyVal.vnat 5)
        = (([(mtdictName, PyVal.vdict [(0, 0), (1, 1)])],
            ⟨aset [(0, []), (1, [("counter", PyVal.vnat 9)])] 0
              [("counter", PyVal.vnat 5)], 2⟩), Except.ok ())
      ∧ (MultiThreadWrapper.getattr counterClass 0
          [(mtdictName, PyVal.vdict [(0, 0), (1, 1)])]
          ⟨aset [(0, []), (1, [("counter", PyVal.vnat 9)])] 0
            [("counter", PyVal.vnat 5)], 2⟩ "counter").2
        = counterClass.getattr [("counter", PyVal.vnat 5)] "counter"
      ∧ (MultiThreadWrapper.getattr counterClass 1
          [(mtdictName, PyVal.vdict [(0, 0), (1, 1)])]
          ⟨aset [(0, []), (1, [("counter", PyVal.vnat 9)])] 0
            [("counter", PyVal.vnat 5)], 2⟩ "counter").2
        = counterClass.getattr [("counter", PyVal.vnat 9)] "counter")
    ∧ (counterClass.getattr [("counter", PyVal.vnat 5)] "counter"
        = Except.ok (PyVal.vnat 5))
    ∧ (counterClass.getattr [("counter", PyVal.vnat 9)] "counter"
        = Except.ok (PyVal.vnat 9)) :=
  ⟨by decide, by decide, by decide, by decide, by decide, by decide,
    by decide, by decide, rfl,
    C1_thread_isolation counterClass 0 1
      [(mtdictName, PyVal.vdict [(0, 0), (1, 1)])]
      ⟨[(0, []), (1, [("counter", PyVal.vnat 9)])], 2⟩
      [(0, 0), (1, 1)] "counter" (PyVal.vnat 5) 0 1
      [] [("counter", PyVal.vnat 9)] [("counter", PyVal.vnat 5)]
      (by decide) (by decide) (by decide) (by decide) (by decide)
      (by decide) (by decide) (by decide) rfl, rfl, rfl⟩

/-- C3: the factory is never invoked at construction (the allocation counter
of a freshly constructed proxy's run is zero); along any sequential trace of
reads, writes, enters and exits (no reserved-name writes, total factory) the
per-thread dictionary has an entry exactly for the thread identities that
have accessed the proxy, its size equals the number of factory invocations
(so each identity triggered exactly one creation, at its first access), and
once an identity is bound to an instance every continuation of the trace
leaves that binding in place. -/
theorem C3_lazy_creation {σ : Type} (C : CtxClass σ) (s0 : σ)
    (hfr : C.mkFresh = Except.ok s0) (tr tr2 : List (ThreadId × Act))
    (htr : tr.all (fun ta => ta.2.noReservedWrite) = true)
    (htr2 : tr2.all (fun ta => ta.2.noReservedWrite) = true) :
    (runTrace C ([] : List (ThreadId × Act))).2.next = 0
    ∧ (∃ m, alookup (runTrace C tr).1 mtdictName = some (PyVal.vdict m)
        ∧ wfB m (runTrace C tr).2 = true
        ∧ m.length = (runTrace C tr).2.next
        ∧ ∀ t, ((alookup m t).isSome = true ↔ t ∈ tr.map Prod.fst))
    ∧ (∀ t o, alookup (mapOf (runTrace C tr)) t = some o →
        alookup (mapOf (runTrace C (tr ++ tr2))) t = some o) := by
  refine ⟨rfl, mtwRunInv C s0 hfr tr htr, ?_⟩
  intro t o hres
  exact mtwRunStable C s0 hfr tr tr2 htr htr2 t o hres

/-- C3 witness: trace where threads 4 and 6 touch the proxy (thread 4
twice), continued by one more access from thread 6. -/
theorem C3_lazy_creation_witness :
    (counterClass.mkFresh = Except.ok [])
    ∧ (([((4 : ThreadId), Act.write "x" (PyVal.vnat 1)),
         (6, Act.read "x"), (4, Act.enter)].all
          (fun ta => ta.2.noReservedWrite)) = true)
    ∧ (([((6 : ThreadId), Act.exitm none)].all
          (fun ta => ta.2.noReservedWrite)) = true)
    ∧ ((runTrace counterClass ([] : List (ThreadId × Act))).2.next = 0
      ∧ (∃ m, alookup (runTrace counterClass
            [((4 : ThreadId), Act.write "x" (PyVal.vnat 1)),
             (6, Act.read "x"), (4, Act.enter)]).1 mtdictName
              = some (PyVal.vdict m)
          ∧ wfB m (runTrace counterClass
              [((4 : ThreadId), Act.write "x" (PyVal.vnat 1)),
               (6, Act.read "x"), (4, Act.enter)]).2 = true
          ∧ m.length = (runTrace counterClass
              [((4 : ThreadId), Act.write "x" (PyVal.vnat 1)),
               (6, Act.read "x"), (4, Act.enter)]).2.next
          ∧ ∀ t, ((alookup m t).isSome = true
              ↔ t ∈ ([((4 : ThreadId), Act.write "x" (PyVal.vnat 1)),
                  (6, Act.read "x"), (4, Act.enter)]).map Prod.fst))
      ∧ (∀ t o, alookup (mapOf (runTrace counterClass
            [((4 : ThreadId), Act.write "x" (PyVal.vnat 1)),
             (6, Act.read "x"), (4, Act.enter)])) t = some o →
          alookup (mapOf (runTrace counterClass
            ([((4 : ThreadId), Act.write "x" (PyVal.vnat 1)),
              (6, Act.read "x"), (4, Act.enter)]
              ++ [(6, Act.exitm none)]))) t = some o)) :=
  ⟨rfl, by decide, by decide,
    C3_lazy_creation counterClass [] rfl
      [((4 : ThreadId), Act.write "x" (PyVal.vnat 1)),
       (6, Act.read "x"), (4, Act.enter)]
      [((6 : ThreadId), Act.exitm none)] (by decide) (by decide)⟩
